import Mathlib

/-!
# Hydra-ROS: pipeline construction, freespace service, exit-mode selection

A shallow embedding of `hydra_ros/src/common/hydra_ros_pipeline.cpp`,
`hydra_ros/src/utils/node_utilities.cpp` and
`hydra_ros/include/hydra_ros/pipeline/ros_reconstruction_config.h`.

Conventions of the embedding:

* the object state of `HydraRosPipeline` is a record; every member function is a
  function from the state (and the results delivered by external collaborators)
  to an `Outcome`;
* every observable action (a registry write, a factory call, a log line, a call
  on a stage) is also appended to a chronological `trace`, so that statements of
  the form "X was never attempted" or "X happened before Y" can be expressed;
* glog's `LOG(FATAL)` writes the message and aborts the process: it is the
  `Outcome.fatal` exit and nothing after it is executed; a failed
  `config::checkValid` ends the construction in the same way;
* dereferencing a null `shared_ptr` and an uncaught `std::out_of_range` are the
  `Outcome.fault` exit.
-/

namespace hydra

/-! ## Data model -/

/-- A `double` (ROS `float64`), kept as its IEEE-754 bit pattern: the code in scope
only stores and forwards such values and never computes with them. -/
structure Double where
  bits : Nat
deriving DecidableEq, Repr

/-- The value `0.0`. -/
def Double.zero : Double := ⟨0⟩

/-- The value `1.0` (bit pattern `0x3FF0000000000000`). -/
def Double.one : Double := ⟨0x3FF0000000000000⟩

/-- The value `2.0` (bit pattern `0x4000000000000000`). -/
def Double.two : Double := ⟨0x4000000000000000⟩

/-- `FrontendModule::PositionMatrix`: a matrix of doubles with three rows and a
run-time number of columns. -/
structure PositionMatrix where
  cols : Nat
  coeff : Fin 3 → Fin cols → Double

/-- `InputQueue<ReconstructionOutput::Ptr>::Ptr`: a shared pointer to a queue, `none`
being the null pointer and `some k` the queue object with identity `k`. -/
abbrev InputQueuePtr := Option Nat

/-- The part of `FrontendModule` (declared in the `hydra` library) that the pipeline
uses: the spatial query and the accessor of the output queue. -/
structure FrontendModule where
  inFreespace : PositionMatrix → Double → List Bool
  getQueue : InputQueuePtr

/-- `BackendConfig` of the `hydra` library, reduced to an identity. -/
structure BackendConfig where
  id : Nat
deriving DecidableEq, Repr

/-- The part of `BackendModule` that the pipeline uses: `config()`. -/
structure BackendModule where
  config : BackendConfig

/-- A `ReconstructionModule`, remembering the queue it was constructed with. -/
structure ReconstructionModule where
  output_queue : InputQueuePtr
deriving DecidableEq, Repr

/-- The dynamic type (and payload) of an object held by the registry `modules_`. -/
inductive Module where
  | FrontendModule (m : FrontendModule)
  | RosFrontendPublisher
  | PlacesVisualizer (ns : String)
  | ReconstructionModule (m : ReconstructionModule)
  | ReconstructionVisualizer (ns : String)
  | BackendModule (m : BackendModule)
  | RosBackendPublisher (cfg : BackendConfig)
  | LoopClosureModule

/-- A `Module::Ptr` (`std::shared_ptr<Module>`): `none` is the null pointer. -/
abbrev ModulePtr := Option Module

/-- `std::dynamic_pointer_cast<FrontendModule>`: the frontend behind the pointer, or
null when the pointer is null or points to an object of another type. -/
def dynamic_pointer_cast_FrontendModule : ModulePtr → Option FrontendModule
  | some (Module.FrontendModule f) => some f
  | _ => none

/-- The registry `std::map<std::string, Module::Ptr> modules_`: `none` for a name that
has no entry, `some p` for an entry holding the (possibly null) pointer `p`. -/
abbrev Registry := String → Option ModulePtr

/-- The empty registry. -/
def Registry.empty : Registry := fun _ => none

/-- `modules_[name] = ptr`: inserts the entry or overwrites it. -/
def Registry.assign (r : Registry) (name : String) (ptr : ModulePtr) : Registry :=
  fun k => if k = name then some ptr else r k

/-- `modules_.count(name)`. -/
def Registry.count (r : Registry) (name : String) : Nat :=
  if (r name).isSome then 1 else 0

/-- `pose_graph_tools::BowQuery`, reduced to an identity; the code only copies it. -/
structure BowQuery where
  id : Nat
deriving DecidableEq, Repr

/-- `pose_graph_tools::BowQueries`: one inbound batch. -/
structure BowQueries where
  queries : List BowQuery
deriving DecidableEq, Repr

/-- `hydra_msgs::QueryFreespace::Request`. -/
structure Request where
  x : List Double
  y : List Double
  z : List Double
  freespace_distance_m : Double
deriving DecidableEq, Repr

/-- `hydra_msgs::QueryFreespace::Response`: one byte per answered point. -/
structure Response where
  in_freespace : List Nat
deriving DecidableEq, Repr

/-- `HydraRosConfig`, with the fields listed by `declare_config`. -/
structure HydraRosConfig where
  enable_lcd : Bool
  use_ros_backend : Bool
  do_reconstruction : Bool
  enable_frontend_output : Bool
  visualize_places : Bool
  places_visualizer_namespace : String
  visualize_reconstruction : Bool
  reconstruction_visualizer_namespace : String
deriving DecidableEq, Repr

/-- The observable actions of the pipeline, in the order they are performed. -/
inductive Event where
  | checkValid (what : String)
  | setLabelSpaceConfig
  | createFrontend
  | createReconstruction (queue : InputQueuePtr)
  | createBackend
  | make_shared (m : Module)
  | setModule (name : String) (ptr : ModulePtr)
  | modulesAt (name : String)
  | logFatal (msg : String)
  | logError (msg : String)
  | frontendAddOutputCallback
  | frontendAddPlaceVisualizationCallback
  | frontendGetQueue
  | reconstructionAddVisualizationCallback
  | backendConfig
  | backendAddOutputCallback
  | advertiseService (name : String)
  | subscribe (topic : String)
  | resetLcdQueue
  | setRegistrationSolver (index : Nat)
  | newPositionMatrix (cols : Nat)
  | inFreespace (points : PositionMatrix) (distance : Double)

/-! ## The freespace service handler -/

/-- The assignment `points(r, c) = v` on the coefficients of a `3 × n` matrix. -/
def setCoeff {n : Nat} (M : Fin 3 → Fin n → Double) (r : Fin 3) (c : Fin n) (v : Double) :
    Fin 3 → Fin n → Double :=
  fun r' c' => if r' = r ∧ c' = c then v else M r' c'

/-- The loop body at index `i`: the three assignments to column `i`. The unchecked
reads `req.y[i]` and `req.z[i]` are within bounds because the handler has compared
the three sizes before the loop. -/
def fillColumn (req : Request) (M : Fin 3 → Fin req.x.length → Double)
    (i : Fin req.x.length) : Fin 3 → Fin req.x.length → Double :=
  let M1 := setCoeff M 0 i (req.x.get i)
  let M2 := setCoeff M1 1 i (req.y.getD i.val Double.zero)
  setCoeff M2 2 i (req.z.getD i.val Double.zero)

/-- The declaration `PositionMatrix points(3, req.x.size())` followed by the loop
`for (size_t i = 0; i < req.x.size(); ++i)`. The fresh matrix is zero-filled here;
every coefficient is overwritten by the loop. -/
def buildPoints (req : Request) : PositionMatrix :=
  { cols := req.x.length
    coeff := (List.finRange req.x.length).foldl (fillColumn req) (fun _ _ => Double.zero) }

/-- The ways the handler can leave without returning. -/
inductive SrvFault where
  | out_of_range
  | null_dereference
deriving DecidableEq, Repr

/-- What a returning call of the handler produced: the return value, the response
object afterwards, and the actions performed during the call. -/
structure SrvReturn where
  ok : Bool
  res : Response
  trace : List Event

/-- The loop `for (const auto flag : result) res.in_freespace.push_back(flag ? 1 : 0)`. -/
def pushFlags (res : Response) (result : List Bool) : Response :=
  { in_freespace :=
      result.foldl (fun acc flag => acc ++ [if flag then 1 else 0]) res.in_freespace }

/-- `HydraRosPipeline::handleFreespaceSrv`, as a function of the registry. -/
def handleFreespaceSrv (modules_ : Registry) (req : Request) (res : Response) :
    Except SrvFault SrvReturn :=
  if req.x.length ≠ req.y.length ∨ req.x.length ≠ req.z.length then
    .ok { ok := false, res := res, trace := [] }
  else if req.x.isEmpty then
    .ok { ok := true, res := res, trace := [] }
  else
    let points := buildPoints req
    match modules_ "frontend" with
    | none => .error SrvFault.out_of_range
    | some ptr =>
      match dynamic_pointer_cast_FrontendModule ptr with
      | none => .error SrvFault.null_dereference
      | some frontend =>
        let result := frontend.inFreespace points req.freespace_distance_m
        .ok { ok := true
              res := pushFlags res result
              trace := [Event.newPositionMatrix req.x.length, Event.modulesAt "frontend",
                        Event.inFreespace points req.freespace_distance_m] }

/-- The `inFreespace` calls recorded in a trace, in order. -/
def inFreespaceCalls : List Event → List (PositionMatrix × Double)
  | [] => []
  | Event.inFreespace p d :: es => (p, d) :: inFreespaceCalls es
  | _ :: es => inFreespaceCalls es

/-! ## The pipeline object and its construction -/

/-- What the external collaborators deliver during construction: the validity checks
of `config_utilities`, the factories `config::createFromROS<...>` (a null pointer is
`none`), and the one field of the loop-closure configuration the code reads. -/
structure Collaborators where
  label_space_valid : Bool
  createFrontend : Option FrontendModule
  createReconstruction : InputQueuePtr → Option ReconstructionModule
  createBackend : Option BackendModule
  lcd_config_valid : Bool
  enable_agent_registration : Bool

/-- The members of a `HydraRosPipeline` object the code in scope reads or writes,
together with the chronological trace of its actions. `freespace_server_` and
`bow_sub_` record whether the service, respectively the subscription, is
registered; `visual_lcd_queue` is the queue of the shared state, front first. -/
structure PipelineState where
  config_ : HydraRosConfig
  modules_ : Registry
  freespace_server_ : Bool
  bow_sub_ : Bool
  visual_lcd_queue : List BowQuery
  trace : List Event

/-- The object as the base-class constructor `HydraPipeline(robot_id, log_setup)` and
the member initialisers leave it: `config_` copied, nothing registered. -/
def PipelineState.fresh (config : HydraRosConfig) : PipelineState :=
  { config_ := config
    modules_ := Registry.empty
    freespace_server_ := false
    bow_sub_ := false
    visual_lcd_queue := []
    trace := [] }

/-- Appends an action to the trace. -/
def PipelineState.log (s : PipelineState) (e : Event) : PipelineState :=
  { s with trace := s.trace ++ [e] }

/-- The statement `modules_[name] = ptr`. -/
def PipelineState.setModule (s : PipelineState) (name : String) (ptr : ModulePtr) :
    PipelineState :=
  { s with modules_ := s.modules_.assign name ptr
           trace := s.trace ++ [Event.setModule name ptr] }

/-- The statement `freespace_server_ = nh_.advertiseService(name, ...)`. -/
def PipelineState.advertiseService (s : PipelineState) (name : String) : PipelineState :=
  { s with freespace_server_ := true
           trace := s.trace ++ [Event.advertiseService name] }

/-- The statement `bow_sub_ = nh_.subscribe(topic, ...)`. -/
def PipelineState.subscribe (s : PipelineState) (topic : String) : PipelineState :=
  { s with bow_sub_ := true
           trace := s.trace ++ [Event.subscribe topic] }

/-- How a piece of construction code ends: it returns (`done`), it is aborted by
`LOG(FATAL)` (`fatal`), or it dereferences a null pointer or lets an exception
escape (`fault`). Each carries the state reached. -/
inductive Outcome where
  | done (s : PipelineState)
  | fatal (s : PipelineState)
  | fault (s : PipelineState)

/-- The state an outcome carries. -/
def Outcome.state : Outcome → PipelineState
  | .done s => s
  | .fatal s => s
  | .fault s => s

/-- Whether the code returned normally. -/
def Outcome.isDone : Outcome → Bool
  | .done _ => true
  | _ => false

/-- Whether the code was aborted by `LOG(FATAL)`. -/
def Outcome.isFatal : Outcome → Bool
  | .fatal _ => true
  | _ => false

/-- Sequencing: the next statement runs only when the previous one returned. -/
def Outcome.andThen (o : Outcome) (next : PipelineState → Outcome) : Outcome :=
  match o with
  | .done s => next s
  | .fatal s => .fatal s
  | .fault s => .fault s

/-- `HydraRosPipeline::initFrontend`. -/
def initFrontend (env : Collaborators) (s0 : PipelineState) : Outcome :=
  let frontend := env.createFrontend
  let s1 := s0.log Event.createFrontend
  let s2 := s1.setModule "frontend" (frontend.map Module.FrontendModule)
  if !s2.config_.enable_frontend_output then
    .done s2
  else
    match frontend with
    | none => .fatal (s2.log (Event.logFatal "Frontend module required!"))
    | some _ =>
      let s3 := s2.log (Event.make_shared Module.RosFrontendPublisher)
      let s4 := s3.setModule "frontend_publisher" (some Module.RosFrontendPublisher)
      let s5 := s4.log Event.frontendAddOutputCallback
      let s6 :=
        if s5.config_.visualize_places then
          let viz := Module.PlacesVisualizer s5.config_.places_visualizer_namespace
          ((s5.log (Event.make_shared viz)).log
            Event.frontendAddPlaceVisualizationCallback).setModule "places_visualizer" (some viz)
        else s5
      .done (s6.advertiseService "query_freespace")

/-- `HydraRosPipeline::initBackend`. -/
def initBackend (env : Collaborators) (s0 : PipelineState) : Outcome :=
  let backend := env.createBackend
  let s1 := s0.log Event.createBackend
  let s2 := s1.setModule "backend" (backend.map Module.BackendModule)
  let s3 := s2.log (Event.modulesAt "backend")
  match s3.modules_ "backend" with
  | none => .fault s3
  | some ptr =>
    if ptr.isNone then
      .fatal (s3.log (Event.logFatal "Failed to construct backend!"))
    else
      match backend with
      | none => .fault s3
      | some b =>
        let s4 := s3.log Event.backendConfig
        let backend_publisher := Module.RosBackendPublisher b.config
        let s5 := s4.log (Event.make_shared backend_publisher)
        let s6 := s5.setModule "backend_publisher" (some backend_publisher)
        .done (s6.log Event.backendAddOutputCallback)

/-- The second half of `HydraRosPipeline::initReconstruction` (from the call of
`config::createFromROS<ReconstructionModule>` on), given the value `frontend_queue`
has at that point. -/
def createReconstructionStage (env : Collaborators) (frontend_queue : InputQueuePtr)
    (s1 : PipelineState) : Outcome :=
  let mod := env.createReconstruction frontend_queue
  let s2 := s1.log (Event.createReconstruction frontend_queue)
  let s3 := s2.setModule "reconstruction" (mod.map Module.ReconstructionModule)
  if s3.config_.visualize_reconstruction then
    let viz := Module.ReconstructionVisualizer s3.config_.reconstruction_visualizer_namespace
    let s4 := s3.log (Event.make_shared viz)
    match mod with
    | none => .fault s4
    | some _ =>
      let s5 := s4.log Event.reconstructionAddVisualizationCallback
      .done (s5.setModule "reconstruction_visualizer" (some viz))
  else
    .done s3

/-- `HydraRosPipeline::initReconstruction`: `frontend_queue` starts as the null
pointer and is assigned only in the branch that found a `FrontendModule`. -/
def initReconstruction (env : Collaborators) (s0 : PipelineState) : Outcome :=
  if s0.modules_.count "frontend" ≠ 0 then
    let s1 := s0.log (Event.modulesAt "frontend")
    match s1.modules_ "frontend" with
    | none => .fault s1
    | some ptr =>
      match dynamic_pointer_cast_FrontendModule ptr with
      | some frontend =>
        createReconstructionStage env frontend.getQueue (s1.log Event.frontendGetQueue)
      | none =>
        createReconstructionStage env none (s1.log (Event.logError
          "Invalid frontend module: disabling reconstruction output queue"))
  else
    createReconstructionStage env none s0

/-- `HydraRosPipeline::initLCD`. -/
def initLCD (env : Collaborators) (s0 : PipelineState) : Outcome :=
  let s1 := s0.log (Event.checkValid "LoopClosureConfig")
  if !env.lcd_config_valid then
    .fatal s1
  else
    let s2 := s1.log Event.resetLcdQueue
    let s3 := s2.log (Event.make_shared Module.LoopClosureModule)
    let s4 := s3.setModule "lcd" (some Module.LoopClosureModule)
    let s5 := s4.subscribe "bow_vectors"
    if env.enable_agent_registration then
      .done (s5.log (Event.setRegistrationSolver 0))
    else
      .done s5

/-- The constructor `HydraRosPipeline::HydraRosPipeline`, run on the fresh object. -/
def HydraRosPipeline (config : HydraRosConfig) (env : Collaborators) : Outcome :=
  let s0 := (PipelineState.fresh config).log (Event.checkValid "LabelSpaceConfig")
  if !env.label_space_valid then
    .fatal s0
  else
    let s1 := s0.log Event.setLabelSpaceConfig
    (initFrontend env s1).andThen fun s2 =>
    (if s2.config_.do_reconstruction then initReconstruction env s2 else .done s2).andThen
      fun s3 =>
    (initBackend env s3).andThen fun s4 =>
    if s4.config_.enable_lcd then initLCD env s4 else .done s4

/-- `InputQueue::push`: the item goes to the back of the queue. -/
def push (queue : List BowQuery) (item : BowQuery) : List BowQuery :=
  queue ++ [item]

/-- The copy `new pose_graph_tools::BowQuery(query)`. -/
def BowQuery.copy (query : BowQuery) : BowQuery :=
  { id := query.id }

/-- `HydraRosPipeline::bowCallback`: the loop over `msg->queries` pushes a copy of
each query to `shared_state_->visual_lcd_queue`. -/
def bowCallback (s : PipelineState) (msg : BowQueries) : PipelineState :=
  { s with visual_lcd_queue :=
      msg.queries.foldl (fun queue query => push queue query.copy) s.visual_lcd_queue }

/-! ## Exit-mode selection -/

/-- `ExitMode` of `node_utilities.h`. -/
inductive ExitMode where
  | CLOCK
  | SERVICE
  | NORMAL
deriving DecidableEq, Repr

/-- `nh.getParam(key, value)` for a string parameter: an unset parameter (`none`)
leaves the variable as it was. -/
def getParam (param : Option String) (value : String) : String :=
  match param with
  | some v => v
  | none => value

/-- `getExitMode`, as a function of the `exit_mode` parameter: the mode returned and
the warnings written by `ROS_WARN_STREAM`. -/
def getExitMode (exit_mode_param : Option String) : ExitMode × List String :=
  let exit_mode_str := getParam exit_mode_param "NORMAL"
  if exit_mode_str = "CLOCK" then
    (ExitMode.CLOCK, [])
  else if exit_mode_str = "SERVICE" then
    (ExitMode.SERVICE, [])
  else if exit_mode_str = "NORMAL" then
    (ExitMode.NORMAL, [])
  else
    (ExitMode.NORMAL, ["Unrecognized option: " ++ exit_mode_str ++ ". Defaulting to NORMAL"])

/-! ## The clock-driven scheduler -/

/-- What one evaluation of a loop condition polls: `ros::ok()` and the number of
publishers of "/clock" reported by the topic manager. -/
structure Observation where
  ok : Bool
  num_pubs : Nat
deriving DecidableEq, Repr

/-- `haveClock`, as a function of the publisher count it reads. -/
def haveClock (num_pubs : Nat) : Bool :=
  decide (num_pubs > 0)

/-- The actions of `spinWhileClockPresent`, in the order they are performed. -/
inductive SpinEvent where
  | subscribe (topic : String)
  | info (msg : String)
  | warn (msg : String)
  | poll (o : Observation)
  | spinOnce
  | sleep
deriving DecidableEq, Repr

/-- Where the control of `spinWhileClockPresent` stands: at the condition of the
first loop, at the condition of the second loop, or past the last statement. -/
inductive SpinPhase where
  | waiting
  | running
  | exited
deriving DecidableEq, Repr

/-- The state of the scheduler: its control point and what it has done so far. -/
structure SpinState where
  phase : SpinPhase
  trace : List SpinEvent
deriving DecidableEq, Repr

/-- The statements of `spinWhileClockPresent` before the first loop: the subscription
to "/clock" unless `use_sim_time` is set, and the first log line. -/
def spinStart (use_sim_time : Bool) : SpinState :=
  { phase := SpinPhase.waiting
    trace := (if !use_sim_time then [SpinEvent.subscribe "/clock"] else []) ++
      [SpinEvent.info "Waiting for bag to start"] }

/-- One evaluation of a loop condition on the observation `o`, with what follows it up
to the next evaluation. In the first loop `ros::ok() && !haveClock()` either runs the
body or falls through to the log line before the second loop; in the second loop
`ros::ok() && haveClock()` either runs the body or falls through to the final
`ros::spinOnce()` and the exit log. Past the exit there is no step. -/
def spinStep (s : SpinState) (o : Observation) : Option SpinState :=
  match s.phase with
  | SpinPhase.waiting =>
    if o.ok && !haveClock o.num_pubs then
      some { phase := SpinPhase.waiting
             trace := s.trace ++ [SpinEvent.poll o, SpinEvent.spinOnce, SpinEvent.sleep] }
    else
      some { phase := SpinPhase.running
             trace := s.trace ++ [SpinEvent.poll o, SpinEvent.info "Running..."] }
  | SpinPhase.running =>
    if o.ok && haveClock o.num_pubs then
      some { phase := SpinPhase.running
             trace := s.trace ++ [SpinEvent.poll o, SpinEvent.spinOnce, SpinEvent.sleep] }
    else
      some { phase := SpinPhase.exited
             trace := s.trace ++ [SpinEvent.poll o, SpinEvent.spinOnce,
               SpinEvent.warn "Exiting!"] }
  | SpinPhase.exited => none

/-- The step relation of the scheduler, labelled by the observation polled. -/
def SpinStep (s : SpinState) (o : Observation) (s' : SpinState) : Prop :=
  spinStep s o = some s'

/-- A run of the scheduler from `s` over the successive observations `obs`. -/
inductive SpinRun : SpinState → List Observation → SpinState → Prop where
  | nil (s : SpinState) : SpinRun s [] s
  | cons {s s' s'' : SpinState} {o : Observation} {obs : List Observation} :
      SpinStep s o s' → SpinRun s' obs s'' → SpinRun s (o :: obs) s''

/-- The run as a function: the state reached over `obs`, if the scheduler has not
exited before all of `obs` is polled. -/
def spinRun (s : SpinState) : List Observation → Option SpinState
  | [] => some s
  | o :: obs =>
    match spinStep s o with
    | some s' => spinRun s' obs
    | none => none

/-- The actions of the loop passes over the observations `obs`: for each, the poll,
the event-processing pass and the sleep. -/
def loopPasses : List Observation → List SpinEvent
  | [] => []
  | o :: obs => [SpinEvent.poll o, SpinEvent.spinOnce, SpinEvent.sleep] ++ loopPasses obs

/-- Whether an action is the evaluation of a loop condition. -/
def SpinEvent.isPoll : SpinEvent → Bool
  | SpinEvent.poll _ => true
  | _ => false

/-- The actions performed after the last evaluation of a loop condition. -/
def afterLastPoll (t : List SpinEvent) : List SpinEvent :=
  (t.reverse.takeWhile (fun e => !e.isPoll)).reverse

/-! ## The reconstruction configuration and its visitor -/

/-- `ExtrinsicsLookupMode`. -/
inductive ExtrinsicsLookupMode where
  | USE_KIMERA
  | USE_TF
  | USE_LOADED_PARAMS
deriving DecidableEq, Repr

/-- The base struct `ReconstructionConfig` of the `hydra` library, reduced to an
identity: the code in scope only hands it to `visit_base`. -/
structure ReconstructionConfig where
  id : Nat
deriving DecidableEq, Repr

/-- `RosReconstructionConfig`: the base part and the members the struct adds. -/
structure RosReconstructionConfig where
  base : ReconstructionConfig
  use_image_receiver : Bool
  publish_pointcloud : Bool
  visualize_reconstruction : Bool
  topology_visualizer_ns : String
  publish_mesh : Bool
  enable_output_queue : Bool
  pointcloud_separation_s : Double
  tf_wait_duration_s : Double
  tf_buffer_size_s : Double
  extrinsics_mode : ExtrinsicsLookupMode
  kimera_extrinsics_file : String
  sensor_frame : String
  image_queue_size : Nat
deriving DecidableEq, Repr

/-- The constructor `RosReconstructionConfig()`: the default-constructed base part
(given) and the default member initialisers; `0.1` is `0x3FB999999999999A` and
`30.0` is `0x403E000000000000`. -/
def RosReconstructionConfig.new (base : ReconstructionConfig) : RosReconstructionConfig :=
  { base := base
    use_image_receiver := false
    publish_pointcloud := false
    visualize_reconstruction := true
    topology_visualizer_ns := "~"
    publish_mesh := false
    enable_output_queue := false
    pointcloud_separation_s := ⟨0x3FB999999999999A⟩
    tf_wait_duration_s := ⟨0x3FB999999999999A⟩
    tf_buffer_size_s := ⟨0x403E000000000000⟩
    extrinsics_mode := ExtrinsicsLookupMode.USE_LOADED_PARAMS
    kimera_extrinsics_file := ""
    sensor_frame := ""
    image_queue_size := 10 }

/-- A visitor, the template parameter of `visit_config`. Its state `σ` stands for
whatever the visitor reads from or writes to (a parameter tree, an output stream).
`v.visit(name, field)` receives the field by reference: each overload is given the
name, the current value of the field and the visitor state, and yields the value
the field has afterwards and the new state. `visit_base` is
`config_parser::ConfigVisitor<ReconstructionConfig>::visit_base`, which is given the
base part only. -/
structure Visitor (σ : Type) where
  visit_base : ReconstructionConfig → σ → ReconstructionConfig × σ
  visitBool : String → Bool → σ → Bool × σ
  visitString : String → String → σ → String × σ
  visitDouble : String → Double → σ → Double × σ
  visitSize : String → Nat → σ → Nat × σ
  visitMode : String → ExtrinsicsLookupMode → σ → ExtrinsicsLookupMode × σ

/-- A point in the course of `visit_config`: the configuration and the visitor state
at that point, and the names passed to `v.visit` so far, in order. -/
structure Visited (σ : Type) where
  config : RosReconstructionConfig
  state : σ
  names : List String

/-- The start of `visit_config`: nothing visited yet. -/
def Visited.start {σ : Type} (st : σ) (config : RosReconstructionConfig) : Visited σ :=
  { config := config, state := st, names := [] }

/-- The call `visit_base(v, config)`. -/
def Visited.visit_base {σ : Type} (v : Visitor σ) (p : Visited σ) : Visited σ :=
  let r := v.visit_base p.config.base p.state
  { config := { p.config with base := r.1 }, state := r.2, names := p.names }

/-- A call `v.visit(name, field)` on a `bool` member, given how to read and write it. -/
def Visited.visitBool {σ : Type} (v : Visitor σ) (name : String)
    (get : RosReconstructionConfig → Bool)
    (set : RosReconstructionConfig → Bool → RosReconstructionConfig) (p : Visited σ) :
    Visited σ :=
  let r := v.visitBool name (get p.config) p.state
  { config := set p.config r.1, state := r.2, names := p.names ++ [name] }

/-- A call `v.visit(name, field)` on a `std::string` member. -/
def Visited.visitString {σ : Type} (v : Visitor σ) (name : String)
    (get : RosReconstructionConfig → String)
    (set : RosReconstructionConfig → String → RosReconstructionConfig) (p : Visited σ) :
    Visited σ :=
  let r := v.visitString name (get p.config) p.state
  { config := set p.config r.1, state := r.2, names := p.names ++ [name] }

/-- A call `v.visit(name, field)` on a `double` member. -/
def Visited.visitDouble {σ : Type} (v : Visitor σ) (name : String)
    (get : RosReconstructionConfig → Double)
    (set : RosReconstructionConfig → Double → RosReconstructionConfig) (p : Visited σ) :
    Visited σ :=
  let r := v.visitDouble name (get p.config) p.state
  { config := set p.config r.1, state := r.2, names := p.names ++ [name] }

/-- A call `v.visit(name, field)` on a `size_t` member. -/
def Visited.visitSize {σ : Type} (v : Visitor σ) (name : String)
    (get : RosReconstructionConfig → Nat)
    (set : RosReconstructionConfig → Nat → RosReconstructionConfig) (p : Visited σ) :
    Visited σ :=
  let r := v.visitSize name (get p.config) p.state
  { config := set p.config r.1, state := r.2, names := p.names ++ [name] }

/-- A call `v.visit(name, field)` on an `ExtrinsicsLookupMode` member. -/
def Visited.visitMode {σ : Type} (v : Visitor σ) (name : String)
    (get : RosReconstructionConfig → ExtrinsicsLookupMode)
    (set : RosReconstructionConfig → ExtrinsicsLookupMode → RosReconstructionConfig)
    (p : Visited σ) : Visited σ :=
  let r := v.visitMode name (get p.config) p.state
  { config := set p.config r.1, state := r.2, names := p.names ++ [name] }

/-- The statements of `visit_config` up to and including
`v.visit("extrinsics_mode", config.extrinsics_mode)`. -/
def visitCommonFields {σ : Type} (v : Visitor σ) (st : σ) (config : RosReconstructionConfig) :
    Visited σ :=
  let p0 := (Visited.start st config).visit_base v
  let p1 := p0.visitBool v "use_image_receiver" (fun c => c.use_image_receiver)
    (fun c x => { c with use_image_receiver := x })
  let p2 := p1.visitBool v "publish_pointcloud" (fun c => c.publish_pointcloud)
    (fun c x => { c with publish_pointcloud := x })
  let p3 := p2.visitBool v "visualize_reconstruction" (fun c => c.visualize_reconstruction)
    (fun c x => { c with visualize_reconstruction := x })
  let p4 := p3.visitString v "topology_visualizer_ns" (fun c => c.topology_visualizer_ns)
    (fun c x => { c with topology_visualizer_ns := x })
  let p5 := p4.visitBool v "publish_reconstruction_mesh" (fun c => c.publish_mesh)
    (fun c x => { c with publish_mesh := x })
  let p6 := p5.visitBool v "enable_reconstruction_output_queue"
    (fun c => c.enable_output_queue) (fun c x => { c with enable_output_queue := x })
  let p7 := p6.visitDouble v "pointcloud_separation_s" (fun c => c.pointcloud_separation_s)
    (fun c x => { c with pointcloud_separation_s := x })
  let p8 := p7.visitDouble v "tf_wait_duration_s" (fun c => c.tf_wait_duration_s)
    (fun c x => { c with tf_wait_duration_s := x })
  let p9 := p8.visitDouble v "tf_buffer_size_s" (fun c => c.tf_buffer_size_s)
    (fun c x => { c with tf_buffer_size_s := x })
  let p10 := p9.visitSize v "image_queue_size" (fun c => c.image_queue_size)
    (fun c x => { c with image_queue_size := x })
  p10.visitMode v "extrinsics_mode" (fun c => c.extrinsics_mode)
    (fun c x => { c with extrinsics_mode := x })

/-- `visit_config` for `RosReconstructionConfig`: the common fields, then the switch on
`config.extrinsics_mode` as it stands at that point. -/
def visit_config {σ : Type} (v : Visitor σ) (st : σ) (config : RosReconstructionConfig) :
    Visited σ :=
  let mid := visitCommonFields v st config
  match mid.config.extrinsics_mode with
  | ExtrinsicsLookupMode.USE_KIMERA =>
    mid.visitString v "kimera_extrinsics_file" (fun c => c.kimera_extrinsics_file)
      (fun c x => { c with kimera_extrinsics_file := x })
  | ExtrinsicsLookupMode.USE_TF =>
    mid.visitString v "sensor_frame" (fun c => c.sensor_frame)
      (fun c x => { c with sensor_frame := x })
  | ExtrinsicsLookupMode.USE_LOADED_PARAMS => mid

/-- Whether a visited name is one of the two companion fields of `extrinsics_mode`. -/
def isCompanionField (name : String) : Bool :=
  name == "kimera_extrinsics_file" || name == "sensor_frame"

/-! ## Reading traces -/

/-- The actions performed by a piece of code that was started in state `s0`: what its
outcome's trace holds beyond the trace of `s0`. -/
def Outcome.actionsSince (o : Outcome) (s0 : PipelineState) : List Event :=
  o.state.trace.drop s0.trace.length

/-- The effect of one recorded action on the registry. -/
def Event.applyTo (e : Event) (r : Registry) : Registry :=
  match e with
  | Event.setModule name ptr => r.assign name ptr
  | _ => r

/-- The registry of an object whose recorded actions so far are `t`. -/
def registryAfter (t : List Event) : Registry :=
  t.foldl (fun r e => e.applyTo r) Registry.empty

/-- Whether an action registers the service `name`. -/
def Event.advertises (name : String) : Event → Bool
  | Event.advertiseService n => n == name
  | _ => false

/-- Whether the "query_freespace" service is registered once the actions `t` have
been performed. -/
def serviceAfter (t : List Event) : Bool :=
  t.any (Event.advertises "query_freespace")

/-- Whether an action writes the registry entry `name`. -/
def Event.writes (name : String) : Event → Bool
  | Event.setModule n _ => n == name
  | _ => false

/-- Actions that neither write the entry "frontend" nor register the service. -/
def Event.keepsFrontend (e : Event) : Bool :=
  !e.writes "frontend" && !e.advertises "query_freespace"

/-- Actions that create, wire or register a reconstruction module or a reconstruction
visualizer. -/
def Event.concernsReconstruction : Event → Bool
  | Event.createReconstruction _ => true
  | Event.make_shared (Module.ReconstructionModule _) => true
  | Event.make_shared (Module.ReconstructionVisualizer _) => true
  | Event.reconstructionAddVisualizationCallback => true
  | Event.setModule name _ => name == "reconstruction" || name == "reconstruction_visualizer"
  | _ => false

/-- The trace of a state accounts for its registry and for the service flag. -/
def Consistent (s : PipelineState) : Prop :=
  s.modules_ = registryAfter s.trace ∧ s.freespace_server_ = serviceAfter s.trace

/-- State `s'` comes after `s`: same configuration, the trace of `s` extended by
actions satisfying `P`, and the trace still accounts for the state. -/
def Ext (P : Event → Bool) (s s' : PipelineState) : Prop :=
  s'.config_ = s.config_ ∧ (Consistent s → Consistent s') ∧
    ∃ es, s'.trace = s.trace ++ es ∧ es.all P = true

/-- The `registryAfter`-state of a trace prefix `p` is ready for the freespace service:
output publishing is enabled, the frontend factory delivered `f`, and the entry
"frontend" holds `f`. -/
def FrontendReady (config : HydraRosConfig) (env : Collaborators) (p : List Event) : Prop :=
  config.enable_frontend_output = true ∧
    ∃ f, env.createFrontend = some f ∧
      registryAfter p "frontend" = some (some (Module.FrontendModule f))

/-- At every moment of the history `t` at which the service is registered, the
frontend is ready. -/
def ServiceSafe (config : HydraRosConfig) (env : Collaborators) (t : List Event) : Prop :=
  ∀ p, p <+: t → serviceAfter p = true → FrontendReady config env p

/-- The coordinate of point `i` that the loop stores in row `r`. -/
def requestCoord (req : Request) (r : Fin 3) (i : Nat) : Double :=
  match r with
  | 0 => req.x.getD i Double.zero
  | 1 => req.y.getD i Double.zero
  | 2 => req.z.getD i Double.zero

/-- Actions that leave both the frontend entry and everything about reconstruction
alone. -/
def Event.neutral (e : Event) : Bool :=
  !e.concernsReconstruction && e.keepsFrontend

/-! ## Sample inputs -/

/-- A frontend that reports every queried point as free, one flag per column. -/
def FrontendModule.allFree : FrontendModule :=
  { inFreespace := fun points _ => List.replicate points.cols true
    getQueue := some 0 }

/-- Collaborators whose checks pass and whose factories all deliver an instance. -/
def Collaborators.allPresent : Collaborators :=
  { label_space_valid := true
    createFrontend := some FrontendModule.allFree
    createReconstruction := fun queue => some { output_queue := queue }
    createBackend := some { config := { id := 0 } }
    lcd_config_valid := true
    enable_agent_registration := false }

/-- Collaborators whose frontend factory delivers the null pointer, everything else
being delivered. -/
def Collaborators.noFrontend : Collaborators :=
  { label_space_valid := true
    createFrontend := none
    createReconstruction := fun queue => some { output_queue := queue }
    createBackend := some { config := { id := 0 } }
    lcd_config_valid := true
    enable_agent_registration := false }

/-- A configuration with every stage toggle off except the reconstruction visualizer. -/
def HydraRosConfig.visualizerOnly : HydraRosConfig :=
  { enable_lcd := false
    use_ros_backend := false
    do_reconstruction := false
    enable_frontend_output := false
    visualize_places := false
    places_visualizer_namespace := "~"
    visualize_reconstruction := true
    reconstruction_visualizer_namespace := "~" }

/-- A configuration that publishes the frontend output and builds every stage. -/
def HydraRosConfig.everything : HydraRosConfig :=
  { enable_lcd := true
    use_ros_backend := false
    do_reconstruction := true
    enable_frontend_output := true
    visualize_places := true
    places_visualizer_namespace := "~"
    visualize_reconstruction := true
    reconstruction_visualizer_namespace := "~" }

/-- A configuration with frontend output publishing off and reconstruction on. -/
def HydraRosConfig.outputDisabled : HydraRosConfig :=
  { enable_lcd := false
    use_ros_backend := false
    do_reconstruction := true
    enable_frontend_output := false
    visualize_places := false
    places_visualizer_namespace := "~"
    visualize_reconstruction := false
    reconstruction_visualizer_namespace := "~" }

/-- The observations of a short run: no publisher, a publisher at two successive
polls, no publisher again, the transport being ok throughout. -/
def Observation.sampleRun : List Observation :=
  [{ ok := true, num_pubs := 0 }, { ok := true, num_pubs := 1 },
   { ok := true, num_pubs := 1 }, { ok := true, num_pubs := 0 }]

/-- The state the scheduler reaches over `Observation.sampleRun` when `use_sim_time`
is not set. -/
def SpinState.sampleExit : SpinState :=
  { phase := SpinPhase.exited
    trace := [SpinEvent.subscribe "/clock", SpinEvent.info "Waiting for bag to start",
      SpinEvent.poll { ok := true, num_pubs := 0 }, SpinEvent.spinOnce, SpinEvent.sleep,
      SpinEvent.poll { ok := true, num_pubs := 1 }, SpinEvent.info "Running...",
      SpinEvent.poll { ok := true, num_pubs := 1 }, SpinEvent.spinOnce, SpinEvent.sleep,
      SpinEvent.poll { ok := true, num_pubs := 0 }, SpinEvent.spinOnce,
      SpinEvent.warn "Exiting!"] }

/-- A visitor that reads a parameter tree in which `extrinsics_mode` is "USE_TF" and
`sensor_frame` is "lidar", every other parameter being absent; its state counts the
calls of `visit`. -/
def Visitor.sampleReader : Visitor Nat :=
  { visit_base := fun base n => (base, n)
    visitBool := fun _ value n => (value, n + 1)
    visitString := fun name value n =>
      (if name = "sensor_frame" then "lidar" else value, n + 1)
    visitDouble := fun _ value n => (value, n + 1)
    visitSize := fun _ value n => (value, n + 1)
    visitMode := fun _ _ n => (ExtrinsicsLookupMode.USE_TF, n + 1) }

theorem fillColumn_apply (req : Request) (M : Fin 3 → Fin req.x.length → Double)
    (i : Fin req.x.length) (r : Fin 3) (j : Fin req.x.length) :
    fillColumn req M i r j = if j = i then requestCoord req r j.val else M r j := by
  by_cases hji : j = i
  · subst hji
    fin_cases r <;> simp [fillColumn, setCoeff, requestCoord, List.getD_eq_getElem]
  · fin_cases r <;> simp [fillColumn, setCoeff, hji]

theorem foldl_fillColumn_apply (req : Request) (l : List (Fin req.x.length))
    (M : Fin 3 → Fin req.x.length → Double) (r : Fin 3) (j : Fin req.x.length) :
    l.foldl (fillColumn req) M r j = if j ∈ l then requestCoord req r j.val else M r j := by
  induction l generalizing M with
  | nil => simp
  | cons i l ih =>
    rw [List.foldl_cons, ih, fillColumn_apply]
    by_cases hjl : j ∈ l
    · simp [hjl]
    · by_cases hji : j = i <;> simp [hjl, hji]

theorem buildPoints_coeff (req : Request) (r : Fin 3) (j : Fin req.x.length) :
    (buildPoints req).coeff r j = requestCoord req r j.val := by
  simp [buildPoints, foldl_fillColumn_apply, List.mem_finRange]

theorem foldl_push_flags (flags : List Bool) (acc : List Nat) :
    flags.foldl (fun acc flag => acc ++ [if flag then 1 else 0]) acc
      = acc ++ flags.map (fun flag => if flag then 1 else 0) := by
  induction flags generalizing acc with
  | nil => simp
  | cons b bs ih => simp [List.foldl_cons, ih]

theorem pushFlags_in_freespace (res : Response) (result : List Bool) :
    (pushFlags res result).in_freespace
      = res.in_freespace ++ result.map (fun flag => if flag then 1 else 0) :=
  foldl_push_flags result res.in_freespace

/-! ## The freespace service -/

/-- C1: when the lengths of `x`, `y` and `z` are not all equal, the handler returns
`false`, hands the response back unchanged and performs no action at all: no
registry lookup, no matrix, no call of `inFreespace`. This holds for every
registry, in particular for one without a frontend. -/
theorem handleFreespaceSrv_length_mismatch (modules_ : Registry) (req : Request)
    (res : Response)
    (h : ¬ (req.x.length = req.y.length ∧ req.x.length = req.z.length)) :
    ∃ r, handleFreespaceSrv modules_ req res = .ok r ∧ r.ok = false ∧ r.res = res ∧
      r.trace = [] ∧ inFreespaceCalls r.trace = [] := by
  have hc : req.x.length ≠ req.y.length ∨ req.x.length ≠ req.z.length := by
    by_contra hne
    push_neg at hne
    exact h hne
  refine ⟨{ ok := false, res := res, trace := [] }, ?_, rfl, rfl, rfl, rfl⟩
  unfold handleFreespaceSrv
  rw [if_pos hc]

/-- The request of the specification's example, `x = [1, 2]`, `y = [1]`, `z = [1]`,
sent to a pipeline whose registry is empty. -/
theorem handleFreespaceSrv_length_mismatch_witness :
    ∃ r, handleFreespaceSrv Registry.empty
        { x := [Double.one, Double.two], y := [Double.one], z := [Double.one],
          freespace_distance_m := Double.one } { in_freespace := [7] } = .ok r ∧
      r.ok = false ∧ r.res = { in_freespace := [7] } ∧ r.trace = [] ∧
      inFreespaceCalls r.trace = [] :=
  handleFreespaceSrv_length_mismatch Registry.empty _ _ (by decide)

/-- C2: for the request whose `x`, `y` and `z` are all empty, whatever the clearance
distance, the registry and the response passed in, the handler returns `true`,
appends nothing to the response (so an empty response stays empty) and performs no
action: `inFreespace` is not called. -/
theorem handleFreespaceSrv_empty (modules_ : Registry) (distance : Double) (res : Response) :
    ∃ r, handleFreespaceSrv modules_
        { x := [], y := [], z := [], freespace_distance_m := distance } res = .ok r ∧
      r.ok = true ∧ r.res = res ∧ (res.in_freespace = [] → r.res.in_freespace = []) ∧
      r.trace = [] ∧ inFreespaceCalls r.trace = [] :=
  ⟨{ ok := true, res := res, trace := [] }, rfl, rfl, rfl, id, rfl, rfl⟩

/-- C3: for a request whose `x`, `y`, `z` have the same length `n > 0`, on a registry
whose entry "frontend" holds the frontend `f`, the handler returns `true` and calls
`inFreespace` exactly once, with the request's distance and a matrix of `n` columns
whose column `i` is `(x[i], y[i], z[i])`; the response afterwards is the response
before followed by one entry per returned flag, in order, `1` for `true` and `0`
for `false`. Hence a response that starts empty holds exactly `n` entries when the
frontend returns one flag per column. -/
theorem handleFreespaceSrv_query (modules_ : Registry) (f : FrontendModule) (req : Request)
    (res : Response)
    (hxy : req.x.length = req.y.length) (hxz : req.x.length = req.z.length)
    (hn : 0 < req.x.length)
    (hf : modules_ "frontend" = some (some (Module.FrontendModule f))) :
    ∃ r points, handleFreespaceSrv modules_ req res = .ok r ∧ r.ok = true ∧
      inFreespaceCalls r.trace = [(points, req.freespace_distance_m)] ∧
      points.cols = req.x.length ∧
      (∀ (i : Nat) (hc : i < points.cols) (hx : i < req.x.length) (hy : i < req.y.length)
          (hz : i < req.z.length),
        points.coeff 0 ⟨i, hc⟩ = req.x[i] ∧ points.coeff 1 ⟨i, hc⟩ = req.y[i] ∧
          points.coeff 2 ⟨i, hc⟩ = req.z[i]) ∧
      r.res.in_freespace = res.in_freespace ++
        (f.inFreespace points req.freespace_distance_m).map
          (fun flag => if flag then 1 else 0) ∧
      (res.in_freespace = [] →
        (f.inFreespace points req.freespace_distance_m).length = points.cols →
        r.res.in_freespace.length = req.x.length) := by
  have hc : ¬ (req.x.length ≠ req.y.length ∨ req.x.length ≠ req.z.length) := by
    rintro (h | h)
    · exact h hxy
    · exact h hxz
  have he : req.x.isEmpty = false := by
    cases hx : req.x with
    | nil => rw [hx] at hn; exact absurd hn (by decide)
    | cons a l => rfl
  refine ⟨{ ok := true
            res := pushFlags res (f.inFreespace (buildPoints req) req.freespace_distance_m)
            trace := [Event.newPositionMatrix req.x.length, Event.modulesAt "frontend",
              Event.inFreespace (buildPoints req) req.freespace_distance_m] },
    buildPoints req, ?_, rfl, rfl, rfl, ?_, ?_, ?_⟩
  · unfold handleFreespaceSrv
    rw [if_neg hc, he]
    simp [hf, dynamic_pointer_cast_FrontendModule]
  · intro i hc' hx hy hz
    refine ⟨?_, ?_, ?_⟩
    · rw [buildPoints_coeff]; simp [requestCoord, List.getD_eq_getElem, hx]
    · rw [buildPoints_coeff]; simp [requestCoord, List.getD_eq_getElem, hy]
    · rw [buildPoints_coeff]; simp [requestCoord, List.getD_eq_getElem, hz]
  · exact pushFlags_in_freespace _ _
  · intro hres hlen
    rw [pushFlags_in_freespace, hres]
    simpa [buildPoints] using hlen

/-- The request `x = [0]`, `y = [0]`, `z = [0]`, distance `1.0` on a pipeline whose
frontend answers one flag per column: exactly one entry is returned. -/
theorem handleFreespaceSrv_query_witness :
    ∃ r, handleFreespaceSrv
        (Registry.empty.assign "frontend" (some (Module.FrontendModule FrontendModule.allFree)))
        { x := [Double.zero], y := [Double.zero], z := [Double.zero],
          freespace_distance_m := Double.one } { in_freespace := [] } = .ok r ∧
      r.ok = true ∧ r.res.in_freespace.length = 1 := by
  obtain ⟨r, points, h1, h2, _, h4, _, _, h7⟩ :=
    handleFreespaceSrv_query
      (Registry.empty.assign "frontend" (some (Module.FrontendModule FrontendModule.allFree)))
      FrontendModule.allFree
      { x := [Double.zero], y := [Double.zero], z := [Double.zero],
        freespace_distance_m := Double.one } { in_freespace := [] }
      rfl rfl (by decide) (by simp [Registry.assign])
  exact ⟨r, h1, h2, h7 rfl (by simp [FrontendModule.allFree])⟩

/-! ## Exit-mode selection -/

/-- C4: `getExitMode` is a total function of the parameter. The value "CLOCK" yields
`CLOCK`, "SERVICE" yields `SERVICE`, and every other value, as well as an unset
parameter, yields `NORMAL` (in particular "NORMAL", "BOGUS", the empty string and
"clock"). A warning is written exactly when the string compared, which is the
parameter value or "NORMAL" when the parameter is unset, is none of "CLOCK",
"SERVICE", "NORMAL"; at most one warning is written. -/
theorem getExitMode_selection (param : Option String) :
    (getExitMode (some "CLOCK")).1 = ExitMode.CLOCK ∧
    (getExitMode (some "SERVICE")).1 = ExitMode.SERVICE ∧
    (param ≠ some "CLOCK" → param ≠ some "SERVICE" →
      (getExitMode param).1 = ExitMode.NORMAL) ∧
    getExitMode none = (ExitMode.NORMAL, []) ∧
    getExitMode (some "NORMAL") = (ExitMode.NORMAL, []) ∧
    (getExitMode (some "BOGUS")).1 = ExitMode.NORMAL ∧
    (getExitMode (some "BOGUS")).2 ≠ [] ∧
    (getExitMode (some "")).1 = ExitMode.NORMAL ∧
    (getExitMode (some "clock")).1 = ExitMode.NORMAL ∧
    ((getExitMode param).2 ≠ [] ↔
      (getParam param "NORMAL" ≠ "CLOCK" ∧ getParam param "NORMAL" ≠ "SERVICE" ∧
        getParam param "NORMAL" ≠ "NORMAL")) ∧
    (getExitMode param).2.length ≤ 1 := by
  refine ⟨by decide, by decide, ?_, by decide, by decide, by decide, by decide, by decide,
    by decide, ?_, ?_⟩
  · intro h1 h2
    cases param with
    | none => decide
    | some v =>
      have hc : v ≠ "CLOCK" := fun h => h1 (by rw [h])
      have hs : v ≠ "SERVICE" := fun h => h2 (by rw [h])
      simp only [getExitMode, getParam, if_neg hc, if_neg hs]
      split <;> rfl
  · simp only [getExitMode]
    split_ifs <;> simp [*]
  · simp only [getExitMode]
    split_ifs <;> simp

/-! ## Bag-of-words ingestion -/

theorem foldl_push_copy (queries queue : List BowQuery) :
    queries.foldl (fun queue query => push queue query.copy) queue = queue ++ queries := by
  induction queries generalizing queue with
  | nil => simp
  | cons q qs ih =>
    rw [List.foldl_cons, ih]
    simp [push, BowQuery.copy]

/-- C8: after `bowCallback` on a batch with queries `q_1 .. q_n`, the shared queue
holds its prior content followed by `q_1 .. q_n` in that order: the prior content
is a prefix of the new content, exactly `n` items are appended, and nothing else of
the pipeline changes. A batch of three appends exactly those three. -/
theorem bowCallback_appends_batch (s : PipelineState) (msg : BowQueries) :
    (bowCallback s msg).visual_lcd_queue = s.visual_lcd_queue ++ msg.queries ∧
    (bowCallback s msg).visual_lcd_queue.length
      = s.visual_lcd_queue.length + msg.queries.length ∧
    (bowCallback s msg).visual_lcd_queue.take s.visual_lcd_queue.length
      = s.visual_lcd_queue ∧
    (bowCallback s msg).visual_lcd_queue.drop s.visual_lcd_queue.length = msg.queries ∧
    (∀ a b c : BowQuery,
      (bowCallback s { queries := [a, b, c] }).visual_lcd_queue
        = s.visual_lcd_queue ++ [a, b, c]) ∧
    (bowCallback s msg).modules_ = s.modules_ ∧
    (bowCallback s msg).freespace_server_ = s.freespace_server_ := by
  have h : ∀ m : BowQueries,
      (bowCallback s m).visual_lcd_queue = s.visual_lcd_queue ++ m.queries :=
    fun m => foldl_push_copy m.queries s.visual_lcd_queue
  refine ⟨h msg, ?_, ?_, ?_, fun a b c => h _, rfl, rfl⟩
  · rw [h, List.length_append]
  · rw [h, List.take_left']
    rfl
  · rw [h, List.drop_left']
    rfl

/-! ## Backend construction -/

/-- C6: `initBackend` from any state, hence under any configuration. When the backend
factory yields no instance the function is aborted by the fatal error, and all it has
done by then is call the factory, store the null pointer under "backend" and look it
up: no publisher was built, the backend was never dereferenced and "backend_publisher"
is untouched. When the factory yields an instance `b` the function returns, a
`RosBackendPublisher` built from `b.config` is registered under "backend_publisher"
and it has been subscribed to the backend's output callback. -/
theorem initBackend_fatal_or_publisher (env : Collaborators) (s0 : PipelineState) :
    (env.createBackend = none →
      ∃ s, initBackend env s0 = Outcome.fatal s ∧
        s.trace = s0.trace ++ [Event.createBackend, Event.setModule "backend" none,
          Event.modulesAt "backend", Event.logFatal "Failed to construct backend!"] ∧
        s.modules_ "backend_publisher" = s0.modules_ "backend_publisher") ∧
    (∀ b, env.createBackend = some b →
      ∃ s, initBackend env s0 = Outcome.done s ∧
        s.modules_ "backend" = some (some (Module.BackendModule b)) ∧
        s.modules_ "backend_publisher" = some (some (Module.RosBackendPublisher b.config)) ∧
        s.trace = s0.trace ++ [Event.createBackend,
          Event.setModule "backend" (some (Module.BackendModule b)),
          Event.modulesAt "backend", Event.backendConfig,
          Event.make_shared (Module.RosBackendPublisher b.config),
          Event.setModule "backend_publisher" (some (Module.RosBackendPublisher b.config)),
          Event.backendAddOutputCallback]) := by
  constructor
  · intro h
    simp [initBackend, h, PipelineState.log, PipelineState.setModule, Registry.assign]
  · intro b h
    simp [initBackend, h, PipelineState.log, PipelineState.setModule, Registry.assign]

/-! ## Reconstruction construction -/

theorem registryAfter_append (t es : List Event) :
    registryAfter (t ++ es) = es.foldl (fun r e => e.applyTo r) (registryAfter t) := by
  simp [registryAfter, List.foldl_append]

theorem foldl_applyTo_of_not_writes (name : String) (es : List Event) (r : Registry)
    (h : es.all (fun e => !e.writes name) = true) :
    es.foldl (fun r e => e.applyTo r) r name = r name := by
  induction es generalizing r with
  | nil => rfl
  | cons e es ih =>
    simp only [List.all_cons, Bool.and_eq_true] at h
    rw [List.foldl_cons, ih _ h.2]
    cases e with
    | setModule n ptr =>
      have hn : n ≠ name := by simpa [Event.writes] using h.1
      simp [Event.applyTo, Registry.assign, Ne.symm hn]
    | _ => rfl

theorem registryAfter_append_of_not_writes (name : String) (t es : List Event)
    (h : es.all (fun e => !e.writes name) = true) :
    registryAfter (t ++ es) name = registryAfter t name := by
  rw [registryAfter_append, foldl_applyTo_of_not_writes name es _ h]

theorem serviceAfter_append (t es : List Event) :
    serviceAfter (t ++ es) = (serviceAfter t || serviceAfter es) := by
  simp [serviceAfter]

theorem serviceAfter_nil : serviceAfter [] = false := rfl

theorem serviceAfter_cons (e : Event) (es : List Event) :
    serviceAfter (e :: es) = (e.advertises "query_freespace" || serviceAfter es) := rfl

theorem serviceAfter_mono {p t : List Event} (hp : p <+: t) (h : serviceAfter p = true) :
    serviceAfter t = true := by
  obtain ⟨es, rfl⟩ := hp
  rw [serviceAfter_append, h]
  rfl

theorem Ext.refl (P : Event → Bool) (s : PipelineState) : Ext P s s :=
  ⟨rfl, id, [], by simp, rfl⟩

theorem Ext.trans {P : Event → Bool} {s s' s'' : PipelineState} (h1 : Ext P s s')
    (h2 : Ext P s' s'') : Ext P s s'' := by
  obtain ⟨c1, k1, es1, t1, a1⟩ := h1
  obtain ⟨c2, k2, es2, t2, a2⟩ := h2
  refine ⟨c2.trans c1, fun h => k2 (k1 h), es1 ++ es2, ?_, ?_⟩
  · rw [t2, t1, List.append_assoc]
  · rw [List.all_append, a1, a2]
    rfl

theorem Ext.andThen {P : Event → Bool} (o : Outcome) (next : PipelineState → Outcome)
    (h : ∀ s, o = Outcome.done s → Ext P s (next s).state) :
    Ext P o.state (o.andThen next).state := by
  cases o with
  | done s => exact h s rfl
  | fatal s => exact Ext.refl P s
  | fault s => exact Ext.refl P s

theorem Ext.mono {P Q : Event → Bool} {s s' : PipelineState}
    (hPQ : ∀ e, P e = true → Q e = true) (h : Ext P s s') : Ext Q s s' := by
  obtain ⟨c, k, es, t, a⟩ := h
  refine ⟨c, k, es, t, ?_⟩
  rw [List.all_eq_true] at a ⊢
  exact fun e he => hPQ e (a e he)

theorem initBackend_ext (env : Collaborators) (s : PipelineState) :
    Ext Event.neutral s (initBackend env s).state := by
  refine ⟨?_, ?_, ?_⟩
  · cases hb : env.createBackend <;>
      simp [initBackend, hb, Outcome.state, PipelineState.log, PipelineState.setModule,
        Registry.assign]
  · rintro ⟨hm, hs⟩
    cases hb : env.createBackend <;>
      simp [initBackend, hb, Outcome.state, PipelineState.log, PipelineState.setModule,
        Registry.assign, Consistent, registryAfter_append, serviceAfter_append, hm, hs,
        Event.applyTo, serviceAfter_cons, serviceAfter_nil, Event.advertises]
  · cases hb : env.createBackend <;>
      simp [initBackend, hb, Outcome.state, PipelineState.log, PipelineState.setModule,
        Registry.assign, Event.neutral, Event.concernsReconstruction, Event.keepsFrontend,
        Event.writes, Event.advertises]

theorem initLCD_ext (env : Collaborators) (s : PipelineState) :
    Ext Event.neutral s (initLCD env s).state := by
  refine ⟨?_, ?_, ?_⟩
  · cases hv : env.lcd_config_valid <;> cases ha : env.enable_agent_registration <;>
      simp [initLCD, hv, ha, Outcome.state, PipelineState.log, PipelineState.setModule,
        PipelineState.subscribe]
  · rintro ⟨hm, hs⟩
    cases hv : env.lcd_config_valid <;> cases ha : env.enable_agent_registration <;>
      simp [initLCD, hv, ha, Outcome.state, PipelineState.log, PipelineState.setModule,
        PipelineState.subscribe, Consistent, registryAfter_append, serviceAfter_append, hm, hs,
        Event.applyTo, serviceAfter_cons, serviceAfter_nil, Event.advertises]
  · cases hv : env.lcd_config_valid <;> cases ha : env.enable_agent_registration <;>
      simp [initLCD, hv, ha, Outcome.state, PipelineState.log, PipelineState.setModule,
        PipelineState.subscribe, Event.neutral, Event.concernsReconstruction,
        Event.keepsFrontend, Event.writes, Event.advertises]

theorem createReconstructionStage_ext (env : Collaborators) (queue : InputQueuePtr)
    (s : PipelineState) :
    Ext Event.keepsFrontend s (createReconstructionStage env queue s).state := by
  refine ⟨?_, ?_, ?_⟩
  · cases hv : s.config_.visualize_reconstruction <;>
      cases hm : env.createReconstruction queue <;>
      simp [createReconstructionStage, hv, hm, Outcome.state, PipelineState.log,
        PipelineState.setModule]
  · rintro ⟨hm, hs⟩
    cases hv : s.config_.visualize_reconstruction <;>
      cases hr : env.createReconstruction queue <;>
      simp [createReconstructionStage, hv, hr, Outcome.state, PipelineState.log,
        PipelineState.setModule, Consistent, registryAfter_append, serviceAfter_append, hm, hs,
        Event.applyTo, serviceAfter_cons, serviceAfter_nil, Event.advertises]
  · cases hv : s.config_.visualize_reconstruction <;>
      cases hm : env.createReconstruction queue <;>
      simp [createReconstructionStage, hv, hm, Outcome.state, PipelineState.log,
        PipelineState.setModule, Event.keepsFrontend, Event.writes, Event.advertises]

theorem log_ext {P : Event → Bool} (s : PipelineState) (e : Event) (hP : P e = true)
    (hw : ∀ name ptr, e ≠ Event.setModule name ptr)
    (ha : e.advertises "query_freespace" = false) : Ext P s (s.log e) := by
  refine ⟨rfl, ?_, [e], rfl, by simp [hP]⟩
  rintro ⟨hm, hs⟩
  refine ⟨?_, ?_⟩
  · show s.modules_ = registryAfter (s.trace ++ [e])
    rw [registryAfter_append, hm]
    cases e <;> first | rfl | exact absurd rfl (hw _ _)
  · show s.freespace_server_ = serviceAfter (s.trace ++ [e])
    rw [serviceAfter_append, serviceAfter_cons, ha, hs]
    simp [serviceAfter_nil]

theorem initReconstruction_ext (env : Collaborators) (s : PipelineState) :
    Ext Event.keepsFrontend s (initReconstruction env s).state := by
  unfold initReconstruction
  split
  · dsimp only
    split
    · exact log_ext s (Event.modulesAt "frontend") rfl (fun _ _ h => by cases h) rfl
    · have h1 := log_ext (P := Event.keepsFrontend) s (Event.modulesAt "frontend") rfl
        (fun _ _ h => by cases h) rfl
      split
      · exact (h1.trans (log_ext _ Event.frontendGetQueue rfl (fun _ _ h => by cases h) rfl)).trans
          (createReconstructionStage_ext env _ _)
      · exact (h1.trans (log_ext _ (Event.logError _) rfl (fun _ _ h => by cases h) rfl)).trans
          (createReconstructionStage_ext env _ _)
  · exact createReconstructionStage_ext env none s

theorem initFrontend_ext (env : Collaborators) (s : PipelineState) :
    Ext (fun e => !e.concernsReconstruction) s (initFrontend env s).state := by
  refine ⟨?_, ?_, ?_⟩
  · cases hf : env.createFrontend <;> cases ho : s.config_.enable_frontend_output <;>
      cases hp : s.config_.visualize_places <;>
      simp [initFrontend, hf, ho, hp, Outcome.state, PipelineState.log,
        PipelineState.setModule, PipelineState.advertiseService]
  · rintro ⟨hm, hs⟩
    cases hf : env.createFrontend <;> cases ho : s.config_.enable_frontend_output <;>
      cases hp : s.config_.visualize_places <;>
      simp [initFrontend, hf, ho, hp, Outcome.state, PipelineState.log,
        PipelineState.setModule, PipelineState.advertiseService, Consistent,
        registryAfter_append, serviceAfter_append, hm, hs, Event.applyTo, serviceAfter_cons,
        serviceAfter_nil, Event.advertises]
  · cases hf : env.createFrontend <;> cases ho : s.config_.enable_frontend_output <;>
      cases hp : s.config_.visualize_places <;>
      simp [initFrontend, hf, ho, hp, Outcome.state, PipelineState.log,
        PipelineState.setModule, PipelineState.advertiseService, Event.concernsReconstruction]

/-! ## The service and the frontend entry along a history -/

theorem serviceSafe_of_no_service (config : HydraRosConfig) (env : Collaborators)
    {t : List Event} (h : serviceAfter t = false) : ServiceSafe config env t := by
  intro p hp hs
  rw [serviceAfter_mono hp hs] at h
  cases h

theorem serviceSafe_snoc {config : HydraRosConfig} {env : Collaborators} {t : List Event}
    {e : Event} (ht : ServiceSafe config env t)
    (he : serviceAfter (t ++ [e]) = true → FrontendReady config env (t ++ [e])) :
    ServiceSafe config env (t ++ [e]) := by
  intro p hp hs
  rcases List.prefix_concat_iff.mp hp with rfl | hp'
  · exact he hs
  · exact ht p hp' hs

theorem serviceSafe_append {config : HydraRosConfig} {env : Collaborators} {t : List Event}
    (ht : ServiceSafe config env t) (es : List Event)
    (hes : es.all Event.keepsFrontend = true) : ServiceSafe config env (t ++ es) := by
  induction es using List.reverseRecOn with
  | nil => simpa using ht
  | append_singleton es e ih =>
    rw [List.all_append, Bool.and_eq_true] at hes
    have hke : e.keepsFrontend = true := by simpa using hes.2
    simp only [Event.keepsFrontend, Bool.and_eq_true, Bool.not_eq_true'] at hke
    rw [← List.append_assoc]
    refine serviceSafe_snoc (ih hes.1) ?_
    intro hs
    rw [serviceAfter_append, serviceAfter_cons, hke.2, serviceAfter_nil] at hs
    simp only [Bool.or_false] at hs
    obtain ⟨ho, f, hf, hr⟩ := ih hes.1 (t ++ es) (List.prefix_refl _) hs
    refine ⟨ho, f, hf, ?_⟩
    rw [registryAfter_append_of_not_writes "frontend" _ [e] (by simp [hke.1]), hr]

theorem initFrontend_serviceSafe (env : Collaborators) (s : PipelineState)
    (h : serviceAfter s.trace = false) :
    ServiceSafe s.config_ env (initFrontend env s).state.trace := by
  cases ho : s.config_.enable_frontend_output
  · apply serviceSafe_of_no_service
    simp [initFrontend, ho, Outcome.state, PipelineState.log, PipelineState.setModule,
      serviceAfter_append, serviceAfter_cons, serviceAfter_nil, Event.advertises, h]
  · cases hf : env.createFrontend with
    | none =>
      apply serviceSafe_of_no_service
      simp [initFrontend, ho, hf, Outcome.state, PipelineState.log, PipelineState.setModule,
        serviceAfter_append, serviceAfter_cons, serviceAfter_nil, Event.advertises, h]
    | some f =>
      cases hp : s.config_.visualize_places
      · simp only [initFrontend, ho, hf, hp, Outcome.state, PipelineState.log,
          PipelineState.setModule, PipelineState.advertiseService, Bool.not_true,
          Bool.false_eq_true, if_false]
        refine serviceSafe_snoc (serviceSafe_of_no_service _ _ ?_) (fun _ => ⟨ho, f, hf, ?_⟩)
        · simp [serviceAfter_append, serviceAfter_cons, serviceAfter_nil, Event.advertises, h]
        · simp [registryAfter_append, Event.applyTo, Registry.assign]
      · simp only [initFrontend, ho, hf, hp, Outcome.state, PipelineState.log,
          PipelineState.setModule, PipelineState.advertiseService, Bool.not_true,
          Bool.false_eq_true, if_false, if_true]
        refine serviceSafe_snoc (serviceSafe_of_no_service _ _ ?_) (fun _ => ⟨ho, f, hf, ?_⟩)
        · simp [serviceAfter_append, serviceAfter_cons, serviceAfter_nil, Event.advertises, h]
        · simp [registryAfter_append, Event.applyTo, Registry.assign]

theorem handleFreespaceSrv_returns (modules_ : Registry) (f : FrontendModule)
    (hf : modules_ "frontend" = some (some (Module.FrontendModule f))) (req : Request)
    (res : Response) : ∃ r, handleFreespaceSrv modules_ req res = .ok r := by
  unfold handleFreespaceSrv
  split
  · exact ⟨_, rfl⟩
  · split
    · exact ⟨_, rfl⟩
    · simp [hf, dynamic_pointer_cast_FrontendModule]

theorem neutral_keepsFrontend (e : Event) (h : e.neutral = true) : e.keepsFrontend = true := by
  simp only [Event.neutral, Bool.and_eq_true] at h
  exact h.2

theorem neutral_not_concernsReconstruction (e : Event) (h : e.neutral = true) :
    (!e.concernsReconstruction) = true := by
  simp only [Event.neutral, Bool.and_eq_true] at h
  exact h.1

theorem afterFrontend_ext (env : Collaborators) (s2 : PipelineState) :
    Ext Event.keepsFrontend s2
      ((if s2.config_.do_reconstruction then initReconstruction env s2
        else Outcome.done s2).andThen fun s3 =>
          (initBackend env s3).andThen fun s4 =>
            if s4.config_.enable_lcd then initLCD env s4 else Outcome.done s4).state := by
  have hX : Ext Event.keepsFrontend s2
      (if s2.config_.do_reconstruction then initReconstruction env s2
        else Outcome.done s2).state := by
    split
    · exact initReconstruction_ext env s2
    · exact Ext.refl _ _
  refine hX.trans (Ext.andThen _ _ fun s3 _ => ?_)
  refine ((initBackend_ext env s3).mono neutral_keepsFrontend).trans
    (Ext.andThen _ _ fun s4 _ => ?_)
  split
  · exact (initLCD_ext env s4).mono neutral_keepsFrontend
  · exact Ext.refl _ _

theorem afterFrontend_ext_disabled (env : Collaborators) (s2 : PipelineState)
    (h : s2.config_.do_reconstruction = false) :
    Ext (fun e => !e.concernsReconstruction) s2
      ((if s2.config_.do_reconstruction then initReconstruction env s2
        else Outcome.done s2).andThen fun s3 =>
          (initBackend env s3).andThen fun s4 =>
            if s4.config_.enable_lcd then initLCD env s4 else Outcome.done s4).state := by
  rw [h]
  simp only [Bool.false_eq_true, if_false, Outcome.andThen]
  refine ((initBackend_ext env s2).mono neutral_not_concernsReconstruction).trans
    (Ext.andThen _ _ fun s4 _ => ?_)
  split
  · exact (initLCD_ext env s4).mono neutral_not_concernsReconstruction
  · exact Ext.refl _ _

theorem fresh_consistent (config : HydraRosConfig) : Consistent (PipelineState.fresh config) :=
  ⟨rfl, rfl⟩

theorem HydraRosPipeline_ext_disabled (config : HydraRosConfig) (env : Collaborators)
    (h : config.do_reconstruction = false) :
    Ext (fun e => !e.concernsReconstruction) (PipelineState.fresh config)
      (HydraRosPipeline config env).state := by
  have h0 : Ext (fun e => !e.concernsReconstruction) (PipelineState.fresh config)
      ((PipelineState.fresh config).log (Event.checkValid "LabelSpaceConfig")) :=
    log_ext _ _ rfl (fun _ _ h => by cases h) rfl
  unfold HydraRosPipeline
  cases hl : env.label_space_valid
  · exact h0
  · simp only [Bool.not_true, Bool.false_eq_true, if_false]
    have h1 := h0.trans (log_ext (P := fun e => !e.concernsReconstruction)
      ((PipelineState.fresh config).log (Event.checkValid "LabelSpaceConfig"))
      Event.setLabelSpaceConfig rfl (fun _ _ h => by cases h) rfl)
    have hF := initFrontend_ext env
      (((PipelineState.fresh config).log (Event.checkValid "LabelSpaceConfig")).log
        Event.setLabelSpaceConfig)
    refine (h1.trans hF).trans (Ext.andThen _ _ fun s2 hO => ?_)
    apply afterFrontend_ext_disabled
    have hc := hF.1
    rw [hO] at hc
    simp only [Outcome.state] at hc
    rw [hc]
    exact h

theorem not_writes_of_not_concernsReconstruction (es : List Event)
    (h : es.all (fun e => !e.concernsReconstruction) = true) :
    es.all (fun e => !e.writes "reconstruction") = true ∧
      es.all (fun e => !e.writes "reconstruction_visualizer") = true := by
  rw [List.all_eq_true] at h
  constructor <;>
  · rw [List.all_eq_true]
    intro e he
    have := h e he
    cases e with
    | setModule n ptr =>
      simp only [Event.concernsReconstruction, Bool.not_eq_true', Bool.or_eq_false_iff] at this
      simp [Event.writes, this.1, this.2]
    | _ => rfl

/-! ## Construction with reconstruction disabled -/

/-- C7: for every configuration with `do_reconstruction = false` (whatever the other
toggles, `visualize_reconstruction` included) and whatever the collaborators
deliver, the object left by the constructor, whether it returned or was aborted,
has no registry entry "reconstruction" and none "reconstruction_visualizer", and no
action of the construction created, wired or registered a `ReconstructionModule`
or a `ReconstructionVisualizer`. -/
theorem HydraRosPipeline_reconstruction_disabled (config : HydraRosConfig)
    (env : Collaborators) (h : config.do_reconstruction = false) :
    (HydraRosPipeline config env).state.modules_ "reconstruction" = none ∧
    (HydraRosPipeline config env).state.modules_ "reconstruction_visualizer" = none ∧
    (HydraRosPipeline config env).state.trace.all (fun e => !e.concernsReconstruction)
      = true := by
  obtain ⟨_, hk, es, ht, hes⟩ := HydraRosPipeline_ext_disabled config env h
  have hm := (hk (fresh_consistent config)).1
  have ht' : (HydraRosPipeline config env).state.trace = [] ++ es := ht
  obtain ⟨hw1, hw2⟩ := not_writes_of_not_concernsReconstruction es hes
  refine ⟨?_, ?_, ?_⟩
  · rw [hm, ht', registryAfter_append_of_not_writes "reconstruction" [] es hw1]
    rfl
  · rw [hm, ht', registryAfter_append_of_not_writes "reconstruction_visualizer" [] es hw2]
    rfl
  · rw [ht']
    simpa using hes

/-- With `do_reconstruction = false` and `visualize_reconstruction = true` nothing of
the reconstruction stage is built. -/
theorem HydraRosPipeline_reconstruction_disabled_witness :
    (HydraRosPipeline HydraRosConfig.visualizerOnly Collaborators.allPresent).state.modules_
        "reconstruction" = none ∧
    (HydraRosPipeline HydraRosConfig.visualizerOnly Collaborators.allPresent).state.modules_
        "reconstruction_visualizer" = none ∧
    (HydraRosPipeline HydraRosConfig.visualizerOnly Collaborators.allPresent).state.trace.all
        (fun e => !e.concernsReconstruction) = true :=
  HydraRosPipeline_reconstruction_disabled _ _ rfl

/-! ## The freespace service is registered only over a frontend -/

theorem filter_writes_of_keepsFrontend (es : List Event)
    (h : es.all Event.keepsFrontend = true) : es.filter (Event.writes "frontend") = [] := by
  rw [List.filter_eq_nil_iff]
  rw [List.all_eq_true] at h
  intro e he
  have := h e he
  simp only [Event.keepsFrontend, Bool.and_eq_true, Bool.not_eq_true'] at this
  simp [this.1]

theorem initFrontend_writes_frontend_once (env : Collaborators) (s : PipelineState)
    (h : s.trace.filter (Event.writes "frontend") = []) :
    ((initFrontend env s).state.trace.filter (Event.writes "frontend")).length ≤ 1 := by
  cases hf : env.createFrontend <;> cases ho : s.config_.enable_frontend_output <;>
    cases hp : s.config_.visualize_places <;>
    simp [initFrontend, hf, ho, hp, Outcome.state, PipelineState.log,
      PipelineState.setModule, PipelineState.advertiseService, List.filter_append, h,
      List.filter_cons, Event.writes]

theorem HydraRosPipeline_consistent_serviceSafe (config : HydraRosConfig)
    (env : Collaborators) :
    Consistent (HydraRosPipeline config env).state ∧
      ServiceSafe config env (HydraRosPipeline config env).state.trace ∧
      ((HydraRosPipeline config env).state.trace.filter (Event.writes "frontend")).length
        ≤ 1 := by
  have h0 : Ext Event.keepsFrontend (PipelineState.fresh config)
      ((PipelineState.fresh config).log (Event.checkValid "LabelSpaceConfig")) :=
    log_ext _ _ rfl (fun _ _ h => by cases h) rfl
  unfold HydraRosPipeline
  cases hl : env.label_space_valid
  · exact ⟨h0.2.1 (fresh_consistent config), serviceSafe_of_no_service _ _ rfl,
      by simp [PipelineState.fresh, PipelineState.log, Outcome.state, Event.writes]⟩
  · simp only [Bool.not_true, Bool.false_eq_true, if_false]
    have h1 := h0.trans (log_ext (P := Event.keepsFrontend)
      ((PipelineState.fresh config).log (Event.checkValid "LabelSpaceConfig"))
      Event.setLabelSpaceConfig rfl (fun _ _ h => by cases h) rfl)
    have hc1 := h1.2.1 (fresh_consistent config)
    have hF := initFrontend_ext env
      (((PipelineState.fresh config).log (Event.checkValid "LabelSpaceConfig")).log
        Event.setLabelSpaceConfig)
    have hS := initFrontend_serviceSafe env
      (((PipelineState.fresh config).log (Event.checkValid "LabelSpaceConfig")).log
        Event.setLabelSpaceConfig) rfl
    have hc2 := hF.2.1 hc1
    have hA := Ext.andThen (P := Event.keepsFrontend) (initFrontend env
      (((PipelineState.fresh config).log (Event.checkValid "LabelSpaceConfig")).log
        Event.setLabelSpaceConfig))
      (fun s2 =>
        (if s2.config_.do_reconstruction then initReconstruction env s2
          else Outcome.done s2).andThen fun s3 =>
            (initBackend env s3).andThen fun s4 =>
              if s4.config_.enable_lcd then initLCD env s4 else Outcome.done s4)
      (fun s2 _ => afterFrontend_ext env s2)
    obtain ⟨_, hk, es, ht, hes⟩ := hA
    refine ⟨hk hc2, ?_, ?_⟩
    · rw [ht]
      exact serviceSafe_append hS es hes
    · rw [ht, List.filter_append, filter_writes_of_keepsFrontend es hes, List.append_nil]
      exact initFrontend_writes_frontend_once env _ rfl

/-- C9: the construction as a history. The trace of the object left by the constructor
accounts for its registry and its service flag, and at every moment of that history
(every prefix `p` of the trace, its state being the one `registryAfter p` and
`serviceAfter p` give) at which the "query_freespace" service is registered:
`enable_frontend_output` is true, the frontend factory delivered an instance `f`,
the entry "frontend" holds `f`, and therefore `handleFreespaceSrv` returns on every
request (neither `modules_.at("frontend")` nor the dereference fails). The same
holds of the final object. The entry "frontend" is written at most once during
construction, so no later step overwrites it. -/
theorem query_freespace_registered_over_frontend (config : HydraRosConfig)
    (env : Collaborators) :
    (HydraRosPipeline config env).state.modules_
      = registryAfter (HydraRosPipeline config env).state.trace ∧
    (HydraRosPipeline config env).state.freespace_server_
      = serviceAfter (HydraRosPipeline config env).state.trace ∧
    (∀ p, p <+: (HydraRosPipeline config env).state.trace → serviceAfter p = true →
      config.enable_frontend_output = true ∧
      ∃ f, env.createFrontend = some f ∧
        registryAfter p "frontend" = some (some (Module.FrontendModule f)) ∧
        ∀ req res, ∃ r, handleFreespaceSrv (registryAfter p) req res = Except.ok r) ∧
    ((HydraRosPipeline config env).state.freespace_server_ = true →
      config.enable_frontend_output = true ∧
      ∃ f, env.createFrontend = some f ∧
        (HydraRosPipeline config env).state.modules_ "frontend"
          = some (some (Module.FrontendModule f)) ∧
        ∀ req res, ∃ r,
          handleFreespaceSrv (HydraRosPipeline config env).state.modules_ req res
            = Except.ok r) ∧
    ((HydraRosPipeline config env).state.trace.filter (Event.writes "frontend")).length
      ≤ 1 := by
  obtain ⟨⟨hm, hs⟩, hsafe, hcount⟩ := HydraRosPipeline_consistent_serviceSafe config env
  refine ⟨hm, hs, ?_, ?_, hcount⟩
  · intro p hp hsp
    obtain ⟨ho, f, hf, hr⟩ := hsafe p hp hsp
    exact ⟨ho, f, hf, hr, handleFreespaceSrv_returns _ f hr⟩
  · intro hreg
    rw [hs] at hreg
    obtain ⟨ho, f, hf, hr⟩ := hsafe _ (List.prefix_refl _) hreg
    rw [← hm] at hr
    exact ⟨ho, f, hf, hr, handleFreespaceSrv_returns _ f hr⟩

/-- With every stage enabled and every factory delivering, the service does get
registered, and the handler returns on the registry the constructor leaves. -/
theorem query_freespace_registered_over_frontend_witness :
    (HydraRosPipeline HydraRosConfig.everything Collaborators.allPresent).state.freespace_server_
      = true ∧
    ∀ req res, ∃ r,
      handleFreespaceSrv
        (HydraRosPipeline HydraRosConfig.everything Collaborators.allPresent).state.modules_
        req res = Except.ok r := by
  have h := (query_freespace_registered_over_frontend HydraRosConfig.everything
    Collaborators.allPresent).2.2.2.1
  have hreg : (HydraRosPipeline HydraRosConfig.everything
      Collaborators.allPresent).state.freespace_server_ = true := by
    rfl
  obtain ⟨_, f, _, _, hr⟩ := h hreg
  exact ⟨hreg, hr⟩

/-! ## A missing frontend -/

/-- C5, evaluated on the code: when the frontend factory delivers no instance,
`initFrontend` raises the fatal error if `enable_frontend_output` is true, but
returns normally, without any fatal error, if it is false, because the early return
for disabled output precedes the null check. With `enable_frontend_output` true the
constructor is aborted right there and neither the reconstruction nor the backend
factory is called. On the configuration `outputDisabled` with a null frontend the
constructor instead runs to completion: the reconstruction factory and the backend
factory are both called and a backend publisher is built. -/
theorem HydraRosPipeline_null_frontend_output_disabled :
    (∀ (env : Collaborators) (s : PipelineState), env.createFrontend = none →
      s.config_.enable_frontend_output = true →
      (initFrontend env s).isFatal = true ∧
        (initFrontend env s).actionsSince s = [Event.createFrontend,
          Event.setModule "frontend" none, Event.logFatal "Frontend module required!"]) ∧
    (∀ (env : Collaborators) (s : PipelineState), env.createFrontend = none →
      s.config_.enable_frontend_output = false →
      (initFrontend env s).isDone = true ∧
        (initFrontend env s).actionsSince s = [Event.createFrontend,
          Event.setModule "frontend" none]) ∧
    (∀ (config : HydraRosConfig) (env : Collaborators), env.label_space_valid = true →
      env.createFrontend = none → config.enable_frontend_output = true →
      (HydraRosPipeline config env).isFatal = true ∧
        (HydraRosPipeline config env).state.trace
          = [Event.checkValid "LabelSpaceConfig", Event.setLabelSpaceConfig,
             Event.createFrontend, Event.setModule "frontend" none,
             Event.logFatal "Frontend module required!"]) ∧
    (HydraRosPipeline HydraRosConfig.outputDisabled Collaborators.noFrontend).isDone = true ∧
    (HydraRosPipeline HydraRosConfig.outputDisabled Collaborators.noFrontend).state.trace
      = [Event.checkValid "LabelSpaceConfig", Event.setLabelSpaceConfig,
         Event.createFrontend, Event.setModule "frontend" none,
         Event.modulesAt "frontend",
         Event.logError "Invalid frontend module: disabling reconstruction output queue",
         Event.createReconstruction none,
         Event.setModule "reconstruction"
           (some (Module.ReconstructionModule { output_queue := none })),
         Event.createBackend,
         Event.setModule "backend" (some (Module.BackendModule { config := { id := 0 } })),
         Event.modulesAt "backend", Event.backendConfig,
         Event.make_shared (Module.RosBackendPublisher { id := 0 }),
         Event.setModule "backend_publisher" (some (Module.RosBackendPublisher { id := 0 })),
         Event.backendAddOutputCallback] := by
  refine ⟨?_, ?_, ?_, rfl, rfl⟩
  · intro env s hf ho
    simp [initFrontend, hf, ho, Outcome.isFatal, Outcome.actionsSince, Outcome.state,
      PipelineState.log, PipelineState.setModule]
  · intro env s hf ho
    simp [initFrontend, hf, ho, Outcome.isDone, Outcome.actionsSince, Outcome.state,
      PipelineState.log, PipelineState.setModule]
  · intro config env hl hf ho
    simp [HydraRosPipeline, initFrontend, hl, hf, ho, Outcome.isFatal, Outcome.andThen,
      Outcome.state, PipelineState.log, PipelineState.setModule, PipelineState.fresh]

/-! ## The clock-driven scheduler -/

theorem SpinRun_iff_spinRun (s : SpinState) (obs : List Observation) (s' : SpinState) :
    SpinRun s obs s' ↔ spinRun s obs = some s' := by
  induction obs generalizing s with
  | nil =>
    constructor
    · intro h
      cases h
      rfl
    · intro h
      simp only [spinRun, Option.some.injEq] at h
      subst h
      exact SpinRun.nil s
  | cons o obs ih =>
    constructor
    · intro h
      cases h with
      | cons hstep hrest =>
        simp only [spinRun, show spinStep s o = some _ from hstep]
        exact (ih _).mp hrest
    · intro h
      simp only [spinRun] at h
      cases hs : spinStep s o with
      | none => rw [hs] at h; cases h
      | some s1 =>
        rw [hs] at h
        exact SpinRun.cons hs ((ih s1).mpr h)

theorem spinStep_progress (s : SpinState) (o : Observation) (h : s.phase ≠ SpinPhase.exited) :
    ∃ s', SpinStep s o s' := by
  obtain ⟨phase, t⟩ := s
  cases phase
  · by_cases hc : (o.ok && !haveClock o.num_pubs) = true
    · exact ⟨_, by simp [SpinStep, spinStep, hc]; rfl⟩
    · exact ⟨_, by simp [SpinStep, spinStep, hc]; rfl⟩
  · by_cases hc : (o.ok && haveClock o.num_pubs) = true
    · exact ⟨_, by simp [SpinStep, spinStep, hc]; rfl⟩
    · exact ⟨_, by simp [SpinStep, spinStep, hc]; rfl⟩
  · exact absurd rfl h

theorem SpinRun_from_exited (t : List SpinEvent) (obs : List Observation) (s : SpinState)
    (h : SpinRun { phase := SpinPhase.exited, trace := t } obs s) :
    obs = [] ∧ s = { phase := SpinPhase.exited, trace := t } := by
  cases h with
  | nil => exact ⟨rfl, rfl⟩
  | cons hstep _ => simp [SpinStep, spinStep] at hstep

theorem SpinRun_from_running (obs : List Observation) (t : List SpinEvent) (s : SpinState)
    (h : SpinRun { phase := SpinPhase.running, trace := t } obs s)
    (hx : s.phase = SpinPhase.exited) :
    ∃ bs z, obs = bs ++ [z] ∧
      (∀ o ∈ bs, (o.ok && haveClock o.num_pubs) = true) ∧
      (z.ok && haveClock z.num_pubs) = false ∧
      s.trace = t ++ loopPasses bs ++
        [SpinEvent.poll z, SpinEvent.spinOnce, SpinEvent.warn "Exiting!"] := by
  induction obs generalizing t with
  | nil =>
    cases h
    cases hx
  | cons o obs ih =>
    cases h with
    | cons hstep hrest =>
      by_cases hc : (o.ok && haveClock o.num_pubs) = true
      · simp only [SpinStep, spinStep, hc, if_true, Option.some.injEq] at hstep
        subst hstep
        obtain ⟨bs, z, hobs, hbs, hz, htr⟩ := ih _ hrest
        refine ⟨o :: bs, z, by rw [hobs]; rfl, ?_, hz, ?_⟩
        · intro o' ho'
          rcases List.mem_cons.mp ho' with rfl | hm
          · exact hc
          · exact hbs o' hm
        · rw [htr]
          simp [loopPasses]
      · rw [Bool.not_eq_true] at hc
        simp only [SpinStep, spinStep, hc, Bool.false_eq_true, if_false,
          Option.some.injEq] at hstep
        subst hstep
        obtain ⟨rfl, rfl⟩ := SpinRun_from_exited _ _ _ hrest
        refine ⟨[], o, rfl, by simp, hc, by simp [loopPasses]⟩

theorem SpinRun_from_waiting (obs : List Observation) (t : List SpinEvent) (s : SpinState)
    (h : SpinRun { phase := SpinPhase.waiting, trace := t } obs s)
    (hx : s.phase = SpinPhase.exited) :
    ∃ as p bs z, obs = as ++ p :: (bs ++ [z]) ∧
      (∀ o ∈ as, (o.ok && !haveClock o.num_pubs) = true) ∧
      (p.ok && !haveClock p.num_pubs) = false ∧
      (∀ o ∈ bs, (o.ok && haveClock o.num_pubs) = true) ∧
      (z.ok && haveClock z.num_pubs) = false ∧
      s.trace = t ++ loopPasses as ++ [SpinEvent.poll p, SpinEvent.info "Running..."] ++
        loopPasses bs ++ [SpinEvent.poll z, SpinEvent.spinOnce, SpinEvent.warn "Exiting!"] := by
  induction obs generalizing t with
  | nil =>
    cases h
    cases hx
  | cons o obs ih =>
    cases h with
    | cons hstep hrest =>
      by_cases hc : (o.ok && !haveClock o.num_pubs) = true
      · simp only [SpinStep, spinStep, hc, if_true, Option.some.injEq] at hstep
        subst hstep
        obtain ⟨as, p, bs, z, hobs, has, hp, hbs, hz, htr⟩ := ih _ hrest
        refine ⟨o :: as, p, bs, z, by rw [hobs]; rfl, ?_, hp, hbs, hz, ?_⟩
        · intro o' ho'
          rcases List.mem_cons.mp ho' with rfl | hm
          · exact hc
          · exact has o' hm
        · rw [htr]
          simp [loopPasses]
      · rw [Bool.not_eq_true] at hc
        simp only [SpinStep, spinStep, hc, Bool.false_eq_true, if_false,
          Option.some.injEq] at hstep
        subst hstep
        obtain ⟨bs, z, hobs, hbs, hz, htr⟩ := SpinRun_from_running _ _ _ hrest hx
        refine ⟨[], o, bs, z, by rw [hobs]; rfl, by simp, hc, hbs, hz, ?_⟩
        rw [htr]
        simp [loopPasses]

theorem count_spinOnce_loopPasses (obs : List Observation) :
    (loopPasses obs).count SpinEvent.spinOnce = obs.length := by
  induction obs with
  | nil => rfl
  | cons o obs ih =>
    simp only [loopPasses, List.count_append, ih, List.length_cons]
    rw [Nat.add_comm]
    rfl

theorem count_spinOnce_spinStart (use_sim_time : Bool) :
    (spinStart use_sim_time).trace.count SpinEvent.spinOnce = 0 := by
  cases use_sim_time <;> rfl

theorem afterLastPoll_exit (t : List SpinEvent) (z : Observation) :
    afterLastPoll (t ++ [SpinEvent.poll z, SpinEvent.spinOnce, SpinEvent.warn "Exiting!"])
      = [SpinEvent.spinOnce, SpinEvent.warn "Exiting!"] := by
  simp [afterLastPoll, List.takeWhile, SpinEvent.isPoll]

/-- C11: every run of `spinWhileClockPresent` that reaches the exit has polled
observations `as ++ p :: (bs ++ [z])`: the polls `as` kept the first loop going, `p`
ended it, the polls `bs` kept the second loop going and `z` ended it, and the
scheduler did exactly the loop passes for `as` and `bs`, the log line between the
loops and, after the poll `z` that ended the second loop, one event-processing pass
and the exit log. When the transport is ok at every poll, `as` all report no
publisher, `p` reports at least one, `bs` all report at least one and `z`, polled
after `p`, reports none: the exit is not reached before a publisher count greater
than zero and afterwards a count of zero have been observed. -/
theorem spinWhileClockPresent_exit (use_sim_time : Bool) (obs : List Observation)
    (s : SpinState) (hrun : SpinRun (spinStart use_sim_time) obs s)
    (hexit : s.phase = SpinPhase.exited) :
    ∃ as p bs z, obs = as ++ p :: (bs ++ [z]) ∧
      s.trace = (spinStart use_sim_time).trace ++ loopPasses as ++
        [SpinEvent.poll p, SpinEvent.info "Running..."] ++ loopPasses bs ++
        [SpinEvent.poll z, SpinEvent.spinOnce, SpinEvent.warn "Exiting!"] ∧
      ((∀ o ∈ obs, o.ok = true) →
        (∀ o ∈ as, o.num_pubs = 0) ∧ 0 < p.num_pubs ∧ (∀ o ∈ bs, 0 < o.num_pubs) ∧
          z.num_pubs = 0) ∧
      afterLastPoll s.trace = [SpinEvent.spinOnce, SpinEvent.warn "Exiting!"] ∧
      (afterLastPoll s.trace).count SpinEvent.spinOnce = 1 ∧
      s.trace.count SpinEvent.spinOnce = as.length + bs.length + 1 := by
  obtain ⟨as, p, bs, z, hobs, has, hp, hbs, hz, htr⟩ :=
    SpinRun_from_waiting obs (spinStart use_sim_time).trace s hrun hexit
  have hlast := afterLastPoll_exit ((spinStart use_sim_time).trace ++ loopPasses as ++
    [SpinEvent.poll p, SpinEvent.info "Running..."] ++ loopPasses bs) z
  rw [← htr] at hlast
  refine ⟨as, p, bs, z, hobs, htr, ?_, hlast, ?_, ?_⟩
  · intro hok
    have hin : ∀ o, o ∈ as ∨ o = p ∨ o ∈ bs ∨ o = z → o.ok = true := by
      intro o ho
      apply hok
      rw [hobs]
      simp only [List.mem_append, List.mem_cons, List.mem_singleton, List.not_mem_nil,
        or_false]
      tauto
    refine ⟨?_, ?_, ?_, ?_⟩
    · intro o ho
      have h1 := has o ho
      rw [hin o (Or.inl ho)] at h1
      simpa [haveClock] using h1
    · rw [hin p (Or.inr (Or.inl rfl))] at hp
      simpa [haveClock] using hp
    · intro o ho
      have h1 := hbs o ho
      rw [hin o (Or.inr (Or.inr (Or.inl ho)))] at h1
      simpa [haveClock] using h1
    · rw [hin z (Or.inr (Or.inr (Or.inr rfl)))] at hz
      simpa [haveClock] using hz
  · rw [hlast]
    rfl
  · rw [htr]
    simp only [List.count_append, count_spinOnce_loopPasses, count_spinOnce_spinStart]
    have h1 : [SpinEvent.poll p, SpinEvent.info "Running..."].count SpinEvent.spinOnce = 0 := rfl
    have h2 : [SpinEvent.poll z, SpinEvent.spinOnce, SpinEvent.warn "Exiting!"].count
        SpinEvent.spinOnce = 1 := rfl
    rw [h1, h2]
    omega

/-- The run over `Observation.sampleRun` reaches the exit, after three
event-processing passes in all, one of them after the last poll. -/
theorem spinWhileClockPresent_exit_witness :
    SpinRun (spinStart false) Observation.sampleRun SpinState.sampleExit ∧
    SpinState.sampleExit.phase = SpinPhase.exited ∧
    afterLastPoll SpinState.sampleExit.trace
      = [SpinEvent.spinOnce, SpinEvent.warn "Exiting!"] ∧
    (afterLastPoll SpinState.sampleExit.trace).count SpinEvent.spinOnce = 1 := by
  have hrun : SpinRun (spinStart false) Observation.sampleRun SpinState.sampleExit :=
    (SpinRun_iff_spinRun _ _ _).mpr rfl
  obtain ⟨_, _, _, _, _, _, _, h1, h2, _⟩ :=
    spinWhileClockPresent_exit false Observation.sampleRun SpinState.sampleExit hrun rfl
  exact ⟨hrun, rfl, h1, h2⟩

/-! ## The companion field of the extrinsics mode -/

theorem visitCommonFields_names {σ : Type} (v : Visitor σ) (st : σ)
    (config : RosReconstructionConfig) :
    (visitCommonFields v st config).names
      = ["use_image_receiver", "publish_pointcloud", "visualize_reconstruction",
         "topology_visualizer_ns", "publish_reconstruction_mesh",
         "enable_reconstruction_output_queue", "pointcloud_separation_s",
         "tf_wait_duration_s", "tf_buffer_size_s", "image_queue_size", "extrinsics_mode"] :=
  rfl

/-- C12: `visit_config` for every visitor, visitor state and configuration. Up to and
including the visit of "extrinsics_mode" neither companion field has been visited or
changed. What follows is decided by the value `extrinsics_mode` has right after
that visit, which is also its final value: for `USE_KIMERA` exactly
"kimera_extrinsics_file" is visited next and `sensor_frame` keeps its prior value;
for `USE_TF` exactly "sensor_frame" is visited next and `kimera_extrinsics_file`
keeps its prior value; for `USE_LOADED_PARAMS` nothing more is visited and both
keep their prior values, which are empty strings in a default-constructed
configuration. At most one companion field is ever visited. -/
theorem visit_config_companion {σ : Type} (v : Visitor σ) (st : σ)
    (config : RosReconstructionConfig) :
    (visitCommonFields v st config).names.getLast? = some "extrinsics_mode" ∧
    (visitCommonFields v st config).names.filter isCompanionField = [] ∧
    (visitCommonFields v st config).config.kimera_extrinsics_file
      = config.kimera_extrinsics_file ∧
    (visitCommonFields v st config).config.sensor_frame = config.sensor_frame ∧
    (visit_config v st config).config.extrinsics_mode
      = (visitCommonFields v st config).config.extrinsics_mode ∧
    ((visitCommonFields v st config).config.extrinsics_mode = ExtrinsicsLookupMode.USE_KIMERA →
      (visit_config v st config).names
        = (visitCommonFields v st config).names ++ ["kimera_extrinsics_file"] ∧
      (visit_config v st config).config.kimera_extrinsics_file
        = (v.visitString "kimera_extrinsics_file" config.kimera_extrinsics_file
            (visitCommonFields v st config).state).1 ∧
      (visit_config v st config).config.sensor_frame = config.sensor_frame) ∧
    ((visitCommonFields v st config).config.extrinsics_mode = ExtrinsicsLookupMode.USE_TF →
      (visit_config v st config).names
        = (visitCommonFields v st config).names ++ ["sensor_frame"] ∧
      (visit_config v st config).config.sensor_frame
        = (v.visitString "sensor_frame" config.sensor_frame
            (visitCommonFields v st config).state).1 ∧
      (visit_config v st config).config.kimera_extrinsics_file
        = config.kimera_extrinsics_file) ∧
    ((visitCommonFields v st config).config.extrinsics_mode
        = ExtrinsicsLookupMode.USE_LOADED_PARAMS →
      (visit_config v st config).names = (visitCommonFields v st config).names ∧
      (visit_config v st config).config.kimera_extrinsics_file
        = config.kimera_extrinsics_file ∧
      (visit_config v st config).config.sensor_frame = config.sensor_frame) ∧
    ((visit_config v st config).names.filter isCompanionField).length ≤ 1 ∧
    (∀ base, (RosReconstructionConfig.new base).kimera_extrinsics_file = "" ∧
      (RosReconstructionConfig.new base).sensor_frame = "" ∧
      (RosReconstructionConfig.new base).extrinsics_mode
        = ExtrinsicsLookupMode.USE_LOADED_PARAMS) := by
  have hk : (visitCommonFields v st config).config.kimera_extrinsics_file
      = config.kimera_extrinsics_file := rfl
  have hs : (visitCommonFields v st config).config.sensor_frame = config.sensor_frame := rfl
  have hn : (visitCommonFields v st config).names.filter isCompanionField = [] := by
    rw [visitCommonFields_names]
    decide
  have hl : (visitCommonFields v st config).names.getLast? = some "extrinsics_mode" := by
    rw [visitCommonFields_names]
    rfl
  refine ⟨hl, hn, hk, hs, ?_, ?_, ?_, ?_, ?_, fun _ => ⟨rfl, rfl, rfl⟩⟩
  · cases hm : (visitCommonFields v st config).config.extrinsics_mode
    · simp only [visit_config, hm]
      exact hm
    · simp only [visit_config, hm]
      exact hm
    · simp only [visit_config, hm]
  · intro hm
    simp only [visit_config, hm]
    exact ⟨rfl, rfl, rfl⟩
  · intro hm
    simp only [visit_config, hm]
    exact ⟨rfl, rfl, rfl⟩
  · intro hm
    simp only [visit_config, hm]
    exact ⟨trivial, rfl, rfl⟩
  · cases hm : (visitCommonFields v st config).config.extrinsics_mode
    · simp only [visit_config, hm, Visited.visitString, List.filter_append, hn]
      decide
    · simp only [visit_config, hm, Visited.visitString, List.filter_append, hn]
      decide
    · simp only [visit_config, hm, hn]
      decide

/-- The sample reader on a default-constructed configuration: the mode is
`USE_LOADED_PARAMS` before the visit and `USE_TF` after it, and it is the value after
the visit that decides: "sensor_frame" is visited and set, "kimera_extrinsics_file"
is neither visited nor changed. -/
theorem visit_config_companion_witness :
    (visit_config Visitor.sampleReader 0 (RosReconstructionConfig.new { id := 0 })).names
      = ["use_image_receiver", "publish_pointcloud", "visualize_reconstruction",
         "topology_visualizer_ns", "publish_reconstruction_mesh",
         "enable_reconstruction_output_queue", "pointcloud_separation_s",
         "tf_wait_duration_s", "tf_buffer_size_s", "image_queue_size", "extrinsics_mode",
         "sensor_frame"] ∧
    (visit_config Visitor.sampleReader 0
      (RosReconstructionConfig.new { id := 0 })).config.sensor_frame = "lidar" ∧
    (visit_config Visitor.sampleReader 0
      (RosReconstructionConfig.new { id := 0 })).config.kimera_extrinsics_file = "" := by
  obtain ⟨_, _, _, _, _, _, htf, _, _, _⟩ :=
    visit_config_companion Visitor.sampleReader 0 (RosReconstructionConfig.new { id := 0 })
  obtain ⟨h1, h2, h3⟩ := htf rfl
  exact ⟨h1, h2, h3⟩

end hydra
